import Mathlib

/-! NVAPI driver-settings example: embedding of `src/example/main.cpp`.

The program is a client of NVIDIA's driver-settings service. The embedding
makes the service an explicit, stateful parameter (`NvApi σ`): every service
entry point takes the service state and returns the new one together with what
it wrote through its out-parameters. Each program function returns the list of
events it produced, in program order: one event per service call (with the
arguments it was given and what it answered) and one per `printf`/`wprintf`.

Reads outside an array are undefined behaviour in C++; the embedding makes them
the explicit result `Fault.outOfBounds`. The one unbounded loop (the profile
loop) takes a fuel argument and answers `Fault.outOfFuel` when it runs dry.
`std::vector<T> v(n)` throws when it cannot get the memory; nothing in the file
catches that exception, so it ends the run: the result `Fault.allocation`,
which keeps the state and the events up to the throw.

`nvapi.h` and `NvApiDriverSettings.h` are not part of the repository, so the
constants the program takes from them are the parameter `NvApiConsts`.
-/

namespace NvapiExample

/-! ## Types and constants of the missing headers -/

/-- The constants `main.cpp` takes from the NVAPI headers. The three type tags
are the `case` labels of one `switch`, which C++ requires to be distinct. -/
structure NvApiConsts where
  NVAPI_OK : Int
  NVAPI_END_ENUMERATION : Int
  NVDRS_DWORD_TYPE : Int
  NVDRS_BINARY_TYPE : Int
  NVDRS_WSTRING_TYPE : Int
  NVDRS_CURRENT_PROFILE_LOCATION : Int
  NVDRS_PROFILE_VER : Nat
  NVDRS_APPLICATION_VER : Nat
  NVDRS_SETTING_VER : Nat
  NVAPI_BINARY_DATA_MAX : Nat
  dword_ne_binary : NVDRS_DWORD_TYPE ≠ NVDRS_BINARY_TYPE
  dword_ne_wstring : NVDRS_DWORD_TYPE ≠ NVDRS_WSTRING_TYPE
  binary_ne_wstring : NVDRS_BINARY_TYPE ≠ NVDRS_WSTRING_TYPE

/-- A concrete choice of the constants for the concrete runs below: status
codes, enumerators and the array bound as in NVIDIA's published headers (where
the enumerator 2 is the ANSI-string type, which `main.cpp` does not handle); the
version words are sample values of the headers' shape
`sizeof(struct) | (version << 16)`. -/
def headerValues : NvApiConsts where
  NVAPI_OK := 0
  NVAPI_END_ENUMERATION := -7
  NVDRS_DWORD_TYPE := 0
  NVDRS_BINARY_TYPE := 1
  NVDRS_WSTRING_TYPE := 3
  NVDRS_CURRENT_PROFILE_LOCATION := 0
  NVDRS_PROFILE_VER := 0x11014
  NVDRS_APPLICATION_VER := 0x44018
  NVDRS_SETTING_VER := 0x13020
  NVAPI_BINARY_DATA_MAX := 4096
  dword_ne_binary := by decide
  dword_ne_wstring := by decide
  binary_ne_wstring := by decide

/-- The struct `NVDRS_BINARY_SETTING`: a length and a fixed-size byte array. -/
structure NVDRS_BINARY_SETTING where
  valueLength : Nat
  valueData : List Nat
  deriving DecidableEq, Repr

/-- The fields of `NVDRS_SETTING` that the program touches. The three current
values are the members of a union in the header; here they are three fields.
Wide strings are the text they hold. -/
structure NVDRS_SETTING where
  version : Nat
  settingName : String
  settingId : Nat
  settingType : Int
  settingLocation : Int
  isCurrentPredefined : Nat
  u32CurrentValue : Nat
  binaryCurrentValue : NVDRS_BINARY_SETTING
  wszCurrentValue : String
  deriving DecidableEq, Repr

/-- The fields of `NVDRS_APPLICATION` that the program touches. -/
structure NVDRS_APPLICATION where
  version : Nat
  isPredefined : Nat
  appName : String
  userFriendlyName : String
  deriving DecidableEq, Repr

/-- The fields of `NVDRS_PROFILE` that the program touches. -/
structure NVDRS_PROFILE where
  version : Nat
  profileName : String
  isPredefined : Nat
  numOfApps : Nat
  numOfSettings : Nat
  deriving DecidableEq, Repr

/-- A value-initialised `NVDRS_SETTING` whose first member is `version`: what
`T x = { version }` and, with `version = 0`, what `std::vector<T> v(n)` build. -/
def NVDRS_SETTING.init (c : NvApiConsts) (version : Nat) : NVDRS_SETTING :=
  { version := version, settingName := "", settingId := 0, settingType := 0,
    settingLocation := 0, isCurrentPredefined := 0, u32CurrentValue := 0,
    binaryCurrentValue :=
      { valueLength := 0, valueData := List.replicate c.NVAPI_BINARY_DATA_MAX 0 },
    wszCurrentValue := "" }

/-- A value-initialised `NVDRS_APPLICATION` with the given first member. -/
def NVDRS_APPLICATION.init (version : Nat) : NVDRS_APPLICATION :=
  { version := version, isPredefined := 0, appName := "", userFriendlyName := "" }

/-- A value-initialised `NVDRS_PROFILE` with the given first member. -/
def NVDRS_PROFILE.init (version : Nat) : NVDRS_PROFILE :=
  { version := version, profileName := "", isPredefined := 0, numOfApps := 0,
    numOfSettings := 0 }

/-! ## The external service -/

/-- What a status-returning call with one out-parameter answers. -/
structure Reply (α σ : Type) where
  status : Int
  value : α
  state : σ

/-- What `NvAPI_DRS_EnumApplications` / `NvAPI_DRS_EnumSettings` answer: the
status, the count written back through the in/out count pointer, and the
elements written to the start of the caller's array. -/
structure EnumReply (α σ : Type) where
  status : Int
  count : Nat
  written : List α
  state : σ

/-- The driver service, as the program sees it. Out-parameters are passed in
with their current content and come back in the reply. Calls whose result the
program discards have no status here (as in the interface list of the
specification). `hardwareQuery` stands for the GPU and chipset queries of
`main`, none of whose outputs is read afterwards. The last two fields are the
C++ runtime, not the service: whether `std::vector<NVDRS_APPLICATION>(n)`,
resp. `std::vector<NVDRS_SETTING>(n)`, gets its memory in the current state. -/
structure NvApi (σ : Type) where
  NvAPI_Initialize : σ → Int × σ
  NvAPI_GetErrorMessage : Int → σ → String × σ
  NvAPI_DRS_CreateSession : Nat → σ → Reply Nat σ
  NvAPI_DRS_LoadSettings : Nat → σ → Int × σ
  NvAPI_DRS_EnumProfiles : Nat → Nat → Nat → σ → Reply Nat σ
  NvAPI_DRS_GetCurrentGlobalProfile : Nat → Nat → σ → Reply Nat σ
  NvAPI_DRS_GetProfileInfo : Nat → Nat → NVDRS_PROFILE → σ → Reply NVDRS_PROFILE σ
  NvAPI_DRS_EnumApplications :
    Nat → Nat → Nat → Nat → List NVDRS_APPLICATION → σ → EnumReply NVDRS_APPLICATION σ
  NvAPI_DRS_EnumSettings :
    Nat → Nat → Nat → Nat → List NVDRS_SETTING → σ → EnumReply NVDRS_SETTING σ
  NvAPI_DRS_GetSettingNameFromId : Nat → String → σ → String × σ
  NvAPI_DRS_DestroySession : Nat → σ → σ
  hardwareQuery : String → σ → σ
  allocApplications : Nat → σ → Bool
  allocSettings : Nat → σ → Bool

/-- The caller's array after the service wrote `written` to its start: the
array keeps its size, elements the service did not write keep their content. -/
def writeBack {α : Type} (buf written : List α) : List α :=
  written.take buf.length ++ buf.drop written.length

/-! ## Events -/

/-- One `printf` / `wprintf` of the program, by what it prints. -/
inductive Out where
  | errorText (text : String)
  | settingName (name : String)
  | settingId (id : Nat)
  | settingPredefined (flag : Nat)
  | settingValueDword (value : Nat)
  | settingBinaryLength (length : Nat)
  | settingBinaryByte (byte : Nat)
  | settingBinaryEnd
  | settingValueText (text : String)
  | profileName (name : String)
  | profileNumOfApps (n : Nat)
  | profileNumOfSettings (n : Nat)
  | profilePredefined (flag : Nat)
  | appExecutable (name : String)
  | appFriendlyName (name : String)
  | appPredefined (flag : Nat)
  | profilePosition (index : Nat)
  | blankLine
  deriving DecidableEq, Repr

/-- One observable step of the program: a service call with its arguments and
its answer, or a line of output. -/
inductive Event where
  | Initialize (status : Int)
  | GetErrorMessage (status : Int) (text : String)
  | CreateSession (status : Int) (hSession : Nat)
  | LoadSettings (hSession : Nat) (status : Int)
  | EnumProfiles (hSession index : Nat) (status : Int) (hProfile : Nat)
  | GetCurrentGlobalProfile (hSession : Nat) (status : Int) (hProfile : Nat)
  | GetProfileInfo (hSession hProfile : Nat) (request : NVDRS_PROFILE) (status : Int)
      (info : NVDRS_PROFILE)
  | EnumApplications (hSession hProfile start capacity : Nat)
      (buffer : List NVDRS_APPLICATION) (status : Int) (count : Nat)
      (result : List NVDRS_APPLICATION)
  | EnumSettings (hSession hProfile start capacity : Nat)
      (buffer : List NVDRS_SETTING) (status : Int) (count : Nat)
      (result : List NVDRS_SETTING)
  | GetSettingNameFromId (settingId : Nat) (name : String)
  | DestroySession (hSession : Nat)
  | hardwareQuery (name : String)
  | print (line : Out)
  deriving DecidableEq, Repr

/-- Why a run has no result: a read outside an array, the fuel of the model
running out, or the exception of a `std::vector` constructor that could not
allocate (with the state and the events of the run up to the throw). -/
inductive Fault (σ : Type) where
  | outOfBounds
  | outOfFuel
  | allocation (s : σ) (ev : List Event)

/-- The fault as seen by a caller that had already produced `pre`. -/
def Fault.after {σ : Type} (pre : List Event) : Fault σ → Fault σ
  | .allocation s ev => .allocation s (pre ++ ev)
  | .outOfBounds => .outOfBounds
  | .outOfFuel => .outOfFuel

/-- The loop `for (i = first; i < first + todo; i++) body(i)`: `todo` is the
number of iterations left, `i` the counter. -/
def forLoop {σ : Type} (body : Nat → σ → Except (Fault σ) (σ × List Event)) :
    Nat → Nat → σ → Except (Fault σ) (σ × List Event)
  | 0, _, s => .ok (s, [])
  | todo + 1, i, s =>
    match body i s with
    | .error f => .error f
    | .ok (s1, ev1) =>
      match forLoop body todo (i + 1) s1 with
      | .error f => .error (f.after ev1)
      | .ok (s2, ev2) => .ok (s2, ev1 ++ ev2)

/-- A loop body that reads `arr[i]` and runs `step` on it; `arr[i]` outside the
array is a fault. -/
def atIndex {α σ : Type} (arr : List α) (step : α → σ → Except (Fault σ) (σ × List Event))
    (i : Nat) (s : σ) : Except (Fault σ) (σ × List Event) :=
  match arr[i]? with
  | none => .error .outOfBounds
  | some x => step x s

/-- The three lines printed for one application, main.cpp 72-74. -/
def appLines (app : NVDRS_APPLICATION) : List Event :=
  [.print (.appExecutable app.appName),
   .print (.appFriendlyName app.userFriendlyName),
   .print (.appPredefined app.isPredefined)]

/-- The application array before the enumeration call, main.cpp 59 and 64:
`std::vector<NVDRS_APPLICATION> appArray(n); appArray[0] = { NVDRS_APPLICATION_VER };`
(`n` value-initialised elements, then element 0 replaced). -/
def appArrayInit (c : NvApiConsts) (n : Nat) : List NVDRS_APPLICATION :=
  (List.replicate n (NVDRS_APPLICATION.init 0)).set 0
    (NVDRS_APPLICATION.init c.NVDRS_APPLICATION_VER)

/-- The setting array before the enumeration call, main.cpp 78 and 80:
`std::vector<NVDRS_SETTING> setArray(n); setArray[0] = { NVDRS_SETTING_VER };`. -/
def setArrayInit (c : NvApiConsts) (n : Nat) : List NVDRS_SETTING :=
  (List.replicate n (NVDRS_SETTING.init c 0)).set 0 (NVDRS_SETTING.init c c.NVDRS_SETTING_VER)

namespace nv.info

variable {σ : Type}

/-- Embeds `print_error`, main.cpp 12-17. -/
def print_error (api : NvApi σ) (status : Int) (s : σ) : σ × List Event :=
  let r := api.NvAPI_GetErrorMessage status s
  (r.2, [.GetErrorMessage status r.1, .print (.errorText r.1)])

/-- Embeds `print_setting_info`, main.cpp 19-41. The `switch` has no `default`. -/
def print_setting_info (c : NvApiConsts) (api : NvApi σ) (setting : NVDRS_SETTING) (s : σ) :
    Except (Fault σ) (σ × List Event) :=
  let r := api.NvAPI_DRS_GetSettingNameFromId setting.settingId setting.settingName s
  let setting := { setting with settingName := r.1 }
  let head : List Event :=
    [.GetSettingNameFromId setting.settingId r.1,
     .print (.settingName setting.settingName),
     .print (.settingId setting.settingId),
     .print (.settingPredefined setting.isCurrentPredefined)]
  if setting.settingType = c.NVDRS_DWORD_TYPE then
    .ok (r.2, head ++ [.print (.settingValueDword setting.u32CurrentValue)])
  else if setting.settingType = c.NVDRS_BINARY_TYPE then
    match forLoop
        (atIndex setting.binaryCurrentValue.valueData
          (fun byte s => .ok (s, [.print (.settingBinaryByte byte)])))
        setting.binaryCurrentValue.valueLength 0 r.2 with
    | .error f =>
      .error (f.after
        (head ++ [.print (.settingBinaryLength setting.binaryCurrentValue.valueLength)]))
    | .ok (s1, bytes) =>
      .ok (s1, head ++ [.print (.settingBinaryLength setting.binaryCurrentValue.valueLength)]
                 ++ bytes ++ [.print .settingBinaryEnd])
  else if setting.settingType = c.NVDRS_WSTRING_TYPE then
    .ok (r.2, head ++ [.print (.settingValueText setting.wszCurrentValue)])
  else
    .ok (r.2, head)

/-- Embeds the application block of `display_profile_contents`, main.cpp 58-76.
The Boolean is `false` when the block executed `return false`. The vector of
line 59 is built before the enumeration call; when it cannot be allocated its
constructor throws. -/
def display_applications (c : NvApiConsts) (api : NvApi σ) (hSession hProfile : Nat)
    (profileInformation : NVDRS_PROFILE) (s : σ) : Except (Fault σ) (Bool × σ × List Event) :=
  if profileInformation.numOfApps > 0 then
    if api.allocApplications profileInformation.numOfApps s = false then
      .error (.allocation s [])
    else
      let appArray := appArrayInit c profileInformation.numOfApps
      let r := api.NvAPI_DRS_EnumApplications hSession hProfile 0 profileInformation.numOfApps
        appArray s
      let appArray1 := writeBack appArray r.written
      let numAppsRead := r.count
      let call := Event.EnumApplications hSession hProfile 0 profileInformation.numOfApps
        appArray r.status r.count appArray1
      if r.status ≠ c.NVAPI_OK then
        let e := print_error api r.status r.state
        .ok (false, e.1, call :: e.2)
      else
        match forLoop (atIndex appArray1 (fun app s => .ok (s, appLines app)))
            numAppsRead 0 r.state with
        | .error f => .error (f.after [call])
        | .ok (s1, ev) => .ok (true, s1, call :: ev)
  else
    .ok (true, s, [])

/-- Embeds the setting block of `display_profile_contents`, main.cpp 77-95.
The Boolean is `false` when the block executed `return false`. The vector of
line 78 is built before the enumeration call; when it cannot be allocated its
constructor throws. -/
def display_settings (c : NvApiConsts) (api : NvApi σ) (hSession hProfile : Nat)
    (profileInformation : NVDRS_PROFILE) (s : σ) : Except (Fault σ) (Bool × σ × List Event) :=
  if profileInformation.numOfSettings > 0 then
    if api.allocSettings profileInformation.numOfSettings s = false then
      .error (.allocation s [])
    else
      let setArray := setArrayInit c profileInformation.numOfSettings
      let r := api.NvAPI_DRS_EnumSettings hSession hProfile 0 profileInformation.numOfSettings
        setArray s
      let setArray1 := writeBack setArray r.written
      let numSetRead := r.count
      let call := Event.EnumSettings hSession hProfile 0 profileInformation.numOfSettings
        setArray r.status r.count setArray1
      if r.status ≠ c.NVAPI_OK then
        let e := print_error api r.status r.state
        .ok (false, e.1, call :: e.2)
      else
        match forLoop
            (atIndex setArray1 (fun setting s =>
              if setting.settingLocation ≠ c.NVDRS_CURRENT_PROFILE_LOCATION then
                .ok (s, [])
              else
                print_setting_info c api setting s))
            numSetRead 0 r.state with
        | .error f => .error (f.after [call])
        | .ok (s1, ev) => .ok (true, s1, call :: ev)
  else
    .ok (true, s, [])

/-- Embeds `display_profile_contents`, main.cpp 43-98. -/
def display_profile_contents (c : NvApiConsts) (api : NvApi σ) (hSession hProfile : Nat)
    (s : σ) : Except (Fault σ) (Bool × σ × List Event) :=
  let request := NVDRS_PROFILE.init c.NVDRS_PROFILE_VER
  let r := api.NvAPI_DRS_GetProfileInfo hSession hProfile request s
  let profileInformation := r.value
  let call := Event.GetProfileInfo hSession hProfile request r.status profileInformation
  if r.status ≠ c.NVAPI_OK then
    .ok (false, r.state, [call])
  else
    let head : List Event :=
      [call,
       .print (.profileName profileInformation.profileName),
       .print (.profileNumOfApps profileInformation.numOfApps),
       .print (.profileNumOfSettings profileInformation.numOfSettings),
       .print (.profilePredefined profileInformation.isPredefined)]
    match display_applications c api hSession hProfile profileInformation r.state with
    | .error f => .error (f.after head)
    | .ok (false, s1, ev1) => .ok (false, s1, head ++ ev1)
    | .ok (true, s1, ev1) =>
      match display_settings c api hSession hProfile profileInformation s1 with
      | .error f => .error (f.after (head ++ ev1))
      | .ok (false, s2, ev2) => .ok (false, s2, head ++ ev1 ++ ev2)
      | .ok (true, s2, ev2) => .ok (true, s2, head ++ ev1 ++ ev2 ++ [.print .blankLine])

/-- Embeds the `while` loop of `enumerate_profiles_on_system`, main.cpp 117-123:
answers the status that ended the loop. `index` is an `unsigned int`. -/
def profile_loop (c : NvApiConsts) (api : NvApi σ) (hSession : Nat) :
    Nat → Nat → Nat → σ → Except (Fault σ) (Int × σ × List Event)
  | 0, _, _, _ => .error .outOfFuel
  | fuel + 1, index, hProfile, s =>
    let r := api.NvAPI_DRS_EnumProfiles hSession index hProfile s
    let call := Event.EnumProfiles hSession index r.status r.value
    if r.status = c.NVAPI_OK then
      match display_profile_contents c api hSession r.value r.state with
      | .error f => .error (f.after [call, .print (.profilePosition index)])
      | .ok (_, s1, ev1) =>
        match profile_loop c api hSession fuel ((index + 1) % 2 ^ 32) r.value s1 with
        | .error f => .error (f.after (call :: .print (.profilePosition index) :: ev1))
        | .ok (status, s2, ev2) =>
          .ok (status, s2, call :: .print (.profilePosition index) :: (ev1 ++ ev2))
    else
      .ok (r.status, r.state, [call])

/-- The statement `if (status != NVAPI_OK) print_error(status);`. -/
def report_unless_ok (c : NvApiConsts) (api : NvApi σ) (status : Int) (s : σ) :
    σ × List Event :=
  if status ≠ c.NVAPI_OK then print_error api status s else (s, [])

/-- The statement after the profile loop, main.cpp 124-127: nothing for
`NVAPI_END_ENUMERATION`, `print_error(status)` for any other status but OK. -/
def report_loop_exit (c : NvApiConsts) (api : NvApi σ) (status : Int) (s : σ) :
    σ × List Event :=
  if status = c.NVAPI_END_ENUMERATION then (s, [])
  else if status ≠ c.NVAPI_OK then print_error api status s
  else (s, [])

/-- Embeds `enumerate_profiles_on_system`, main.cpp 100-131. An exception out of
`display_profile_contents` leaves the function at that point: no `try` exists. -/
def enumerate_profiles_on_system (c : NvApiConsts) (api : NvApi σ) (fuel : Nat) (s : σ) :
    Except (Fault σ) (σ × List Event) :=
  let r0 := api.NvAPI_Initialize s
  let e0 := report_unless_ok c api r0.1 r0.2
  let r1 := api.NvAPI_DRS_CreateSession 0 e0.1
  let hSession := r1.value
  let e1 := report_unless_ok c api r1.status r1.state
  let r2 := api.NvAPI_DRS_LoadSettings hSession e1.1
  let e2 := report_unless_ok c api r2.1 r2.2
  match profile_loop c api hSession fuel 0 0 e2.1 with
  | .error f =>
    .error (f.after
      ([Event.Initialize r0.1] ++ e0.2 ++ [Event.CreateSession r1.status r1.value] ++ e1.2
        ++ [Event.LoadSettings hSession r2.1] ++ e2.2))
  | .ok (status, s3, ev3) =>
    let e3 := report_loop_exit c api status s3
    .ok (api.NvAPI_DRS_DestroySession hSession e3.1,
         [Event.Initialize r0.1] ++ e0.2 ++ [Event.CreateSession r1.status r1.value] ++ e1.2
           ++ [Event.LoadSettings hSession r2.1] ++ e2.2 ++ ev3 ++ e3.2
           ++ [Event.DestroySession hSession])

end nv.info

/-- How `main` ends: `return code`, or one of its own `throw std::runtime_error`
statements, which nothing catches. (An exception of a vector constructor inside
`display_profile_contents` is the result `Fault.allocation`.) -/
inductive Exit where
  | returned (code : Int)
  | threw (what : String)
  deriving DecidableEq, Repr

/-- The GPU and chipset queries of `main`, main.cpp 168-185, in program order. -/
def hardwareQueries : List String :=
  ["NvAPI_EnumPhysicalGPUs", "NvAPI_GPU_GetFullName", "NvAPI_GPU_GetPCIIdentifiers",
   "NvAPI_GPU_GetBusId", "NvAPI_GPU_GetVbiosRevision", "NvAPI_GPU_GetVbiosOEMRevision",
   "NvAPI_GPU_GetVbiosVersionString", "NvAPI_GPU_GetBoardInfo",
   "NvAPI_GPU_WorkstationFeatureQuery", "NvAPI_GPU_GetGpuCoreCount",
   "NvAPI_SYS_GetChipSetInfo", "NvAPI_GetInterfaceVersionString"]

/-- Embeds `main`, main.cpp 135-215. -/
def main {σ : Type} (c : NvApiConsts) (api : NvApi σ) (s : σ) :
    Except (Fault σ) (Exit × σ × List Event) :=
  let r0 := api.NvAPI_Initialize s
  let ev0 := [Event.Initialize r0.1]
  if r0.1 ≠ c.NVAPI_OK then
    .ok (.threw "NVIDIA Api not initialized", r0.2, ev0)
  else
    let r1 := api.NvAPI_DRS_CreateSession 0 r0.2
    let _session := r1.value
    let ev1 := ev0 ++ [Event.CreateSession r1.status r1.value]
    if r1.status ≠ c.NVAPI_OK then
      .ok (.threw "can't create session", r1.state, ev1)
    else
      let r2 := api.NvAPI_DRS_LoadSettings _session r1.state
      let ev2 := ev1 ++ [Event.LoadSettings _session r2.1]
      if r2.1 ≠ c.NVAPI_OK then
        .ok (.threw "can't load system settings", r2.2, ev2)
      else
        let r3 := api.NvAPI_DRS_GetCurrentGlobalProfile _session 0 r2.2
        let _profile := r3.value
        let ev3 := ev2 ++ [Event.GetCurrentGlobalProfile _session r3.status r3.value]
        if r3.status ≠ c.NVAPI_OK then
          .ok (.threw "can't get current global profile", r3.state, ev3)
        else
          let s4 := hardwareQueries.foldl (fun s name => api.hardwareQuery name s) r3.state
          let ev4 := ev3 ++ hardwareQueries.map Event.hardwareQuery
          match nv.info.display_profile_contents c api _session _profile s4 with
          | .error f => .error (f.after ev4)
          | .ok (_, s5, ev5) =>
            .ok (.returned 0, api.NvAPI_DRS_DestroySession _session s5,
                 ev4 ++ ev5 ++ [Event.DestroySession _session])

/-! ## Observations on event lists -/

/-- Runs `step` on the elements of a list, in list order, threading the state. -/
def forEach {α σ : Type} (step : α → σ → Except (Fault σ) (σ × List Event)) :
    List α → σ → Except (Fault σ) (σ × List Event)
  | [], s => .ok (s, [])
  | x :: xs, s =>
    match step x s with
    | .error f => .error f
    | .ok (s1, ev1) =>
      match forEach step xs s1 with
      | .error f => .error (f.after ev1)
      | .ok (s2, ev2) => .ok (s2, ev1 ++ ev2)

/-- The events of the printing loops: output lines and setting-name lookups. -/
def Event.quiet : Event → Bool
  | .print _ => true
  | .GetSettingNameFromId _ _ => true
  | _ => false

/-- The events that are not `quiet`, in order. -/
def loud (ev : List Event) : List Event := ev.filter (fun e => !e.quiet)

/-- The status a service call handed back to the program, for the calls whose
status the program receives. -/
def Event.status? : Event → Option Int
  | .Initialize st => some st
  | .CreateSession st _ => some st
  | .LoadSettings _ st => some st
  | .EnumProfiles _ _ st _ => some st
  | .GetCurrentGlobalProfile _ st _ => some st
  | .GetProfileInfo _ _ _ st _ => some st
  | .EnumApplications _ _ _ _ _ st _ _ => some st
  | .EnumSettings _ _ _ _ _ st _ _ => some st
  | _ => none

/-- The statuses of the status-returning service calls of a run, in order. -/
def statuses (ev : List Event) : List Int := ev.filterMap Event.status?

/-- A step of the walk over the profiles: an `EnumProfiles` call (index asked,
status and handle answered) or a `display_profile_contents` call, seen through
the `GetProfileInfo` call that opens it (the handle it was given). -/
inductive Visit where
  | enumerated (index : Nat) (status : Int) (hProfile : Nat)
  | displayed (hProfile : Nat)
  deriving DecidableEq, Repr

/-- The walk step an event stands for. -/
def Event.visit? : Event → Option Visit
  | .EnumProfiles _ index st hProfile => some (.enumerated index st hProfile)
  | .GetProfileInfo _ hProfile _ _ _ => some (.displayed hProfile)
  | _ => none

/-- The walk over the profiles that a run performed. -/
def visits (ev : List Event) : List Visit := ev.filterMap Event.visit?

/-- The `(start index, capacity)` of an `EnumApplications` call. -/
def Event.enumApplications? : Event → Option (Nat × Nat)
  | .EnumApplications _ _ start capacity _ _ _ _ => some (start, capacity)
  | _ => none

/-- The `(start index, capacity)` of an `EnumSettings` call. -/
def Event.enumSettings? : Event → Option (Nat × Nat)
  | .EnumSettings _ _ start capacity _ _ _ _ => some (start, capacity)
  | _ => none

/-- The `EnumApplications` calls of a run, as `(start index, capacity)`. -/
def enumApplicationsCalls (ev : List Event) : List (Nat × Nat) :=
  ev.filterMap Event.enumApplications?

/-- The `EnumSettings` calls of a run, as `(start index, capacity)`. -/
def enumSettingsCalls (ev : List Event) : List (Nat × Nat) :=
  ev.filterMap Event.enumSettings?

/-- The status `print_error` was called with, seen through the
`GetErrorMessage` call that opens it. -/
def Event.printError? : Event → Option Int
  | .GetErrorMessage st _ => some st
  | _ => none

/-- The `print_error` calls of a run, by their argument. -/
def printErrorCalls (ev : List Event) : List Int := ev.filterMap Event.printError?

/-- The setting `print_setting_info` was called on, seen through the name
lookup that opens it. -/
def Event.settingShown? : Event → Option Nat
  | .GetSettingNameFromId settingId _ => some settingId
  | _ => none

/-- The identifiers of the settings handed to `print_setting_info`, in order. -/
def settingsShown (ev : List Event) : List Nat := ev.filterMap Event.settingShown?

/-- The session handle of a `DestroySession` call. -/
def Event.destroy? : Event → Option Nat
  | .DestroySession hSession => some hSession
  | _ => none

/-- The `DestroySession` calls of a run. -/
def destroyCalls (ev : List Event) : List Nat := ev.filterMap Event.destroy?

/-- The version fields of the records an event passed to the service: the
request record of `GetProfileInfo`, the elements of an enumeration buffer. -/
def Event.versionsSent : Event → List Nat
  | .GetProfileInfo _ _ request _ _ => [request.version]
  | .EnumApplications _ _ _ _ buffer _ _ _ => buffer.map (·.version)
  | .EnumSettings _ _ _ _ buffer _ _ _ => buffer.map (·.version)
  | _ => []

/-- The service keeps the program's reads inside its arrays: an enumeration
reports at most as many elements as the array holds, and a binary setting it
writes has a length within its data array. These are the runs C++ defines. -/
def NvApi.InBounds {σ : Type} (c : NvApiConsts) (api : NvApi σ) : Prop :=
  (∀ hS hP start n buf s,
      (api.NvAPI_DRS_EnumApplications hS hP start n buf s).count ≤ buf.length) ∧
  (∀ hS hP start n buf s,
      (api.NvAPI_DRS_EnumSettings hS hP start n buf s).count ≤ buf.length) ∧
  (∀ hS hP start n buf s,
      ∀ x ∈ (api.NvAPI_DRS_EnumSettings hS hP start n buf s).written,
        x.settingType = c.NVDRS_BINARY_TYPE →
          x.binaryCurrentValue.valueLength ≤ x.binaryCurrentValue.valueData.length)

/-- Every buffer the program asks for can be allocated: whatever counts a
`GetProfileInfo` call answers to the program's request, vectors of those sizes
get their memory. -/
def NvApi.Allocates {σ : Type} (c : NvApiConsts) (api : NvApi σ) : Prop :=
  ∀ hS hP s s1,
    (0 < (api.NvAPI_DRS_GetProfileInfo hS hP (NVDRS_PROFILE.init c.NVDRS_PROFILE_VER)
        s).value.numOfApps →
      api.allocApplications
        (api.NvAPI_DRS_GetProfileInfo hS hP (NVDRS_PROFILE.init c.NVDRS_PROFILE_VER)
          s).value.numOfApps s1 = true) ∧
    (0 < (api.NvAPI_DRS_GetProfileInfo hS hP (NVDRS_PROFILE.init c.NVDRS_PROFILE_VER)
        s).value.numOfSettings →
      api.allocSettings
        (api.NvAPI_DRS_GetProfileInfo hS hP (NVDRS_PROFILE.init c.NVDRS_PROFILE_VER)
          s).value.numOfSettings s1 = true)

/-- The four events every `print_setting_info` call starts with, main.cpp 21-24:
the name lookup and the name, identifier and predefined lines. -/
def settingHead {σ : Type} (api : NvApi σ) (setting : NVDRS_SETTING) (s : σ) : List Event :=
  [.GetSettingNameFromId setting.settingId
      (api.NvAPI_DRS_GetSettingNameFromId setting.settingId setting.settingName s).1,
   .print (.settingName
      (api.NvAPI_DRS_GetSettingNameFromId setting.settingId setting.settingName s).1),
   .print (.settingId setting.settingId),
   .print (.settingPredefined setting.isCurrentPredefined)]

/-- The value lines of a setting, by its type tag. -/
def valueLines (c : NvApiConsts) (setting : NVDRS_SETTING) : List Event :=
  if setting.settingType = c.NVDRS_DWORD_TYPE then
    [.print (.settingValueDword setting.u32CurrentValue)]
  else if setting.settingType = c.NVDRS_BINARY_TYPE then
    [.print (.settingBinaryLength setting.binaryCurrentValue.valueLength)]
      ++ (setting.binaryCurrentValue.valueData.take
            setting.binaryCurrentValue.valueLength).map (fun b => .print (.settingBinaryByte b))
      ++ [.print .settingBinaryEnd]
  else if setting.settingType = c.NVDRS_WSTRING_TYPE then
    [.print (.settingValueText setting.wszCurrentValue)]
  else
    []

/-- The settings the specification surfaces, in its words: among the first
`count` elements of the array (the returned count), those whose location tag is
the current-profile location, in array order. -/
def currentProfileSettings (c : NvApiConsts) (arr : List NVDRS_SETTING) (count : Nat) :
    List NVDRS_SETTING :=
  (arr.take count).filter
    (fun x => decide (x.settingLocation = c.NVDRS_CURRENT_PROFILE_LOCATION))

/-- Events about one setting: its name lookup and the lines `print_setting_info`
prints. -/
def Event.aboutSetting : Event → Bool
  | .GetSettingNameFromId _ _ => true
  | .print (.settingName _) => true
  | .print (.settingId _) => true
  | .print (.settingPredefined _) => true
  | .print (.settingValueDword _) => true
  | .print (.settingBinaryLength _) => true
  | .print (.settingBinaryByte _) => true
  | .print .settingBinaryEnd => true
  | .print (.settingValueText _) => true
  | _ => false

/-- The events of a run that are about a setting, in order. -/
def settingEvents (ev : List Event) : List Event := ev.filter Event.aboutSetting

/-! ## Outline of a `display_profile_contents` run

The result and the `loud` events of each block, written without the loops. -/

/-- Outline of the application block: result, state after it, loud events. -/
def applicationsOutline {σ : Type} (c : NvApiConsts) (api : NvApi σ) (hSession hProfile : Nat)
    (info : NVDRS_PROFILE) (s : σ) : Bool × σ × List Event :=
  if info.numOfApps > 0 then
    let r := api.NvAPI_DRS_EnumApplications hSession hProfile 0 info.numOfApps
      (appArrayInit c info.numOfApps) s
    let call := Event.EnumApplications hSession hProfile 0 info.numOfApps
      (appArrayInit c info.numOfApps) r.status r.count
      (writeBack (appArrayInit c info.numOfApps) r.written)
    if r.status ≠ c.NVAPI_OK then
      (false, (api.NvAPI_GetErrorMessage r.status r.state).2,
        [call, .GetErrorMessage r.status (api.NvAPI_GetErrorMessage r.status r.state).1])
    else
      (true, r.state, [call])
  else
    (true, s, [])

/-- Outline of the setting block: result and loud events. -/
def settingsOutline {σ : Type} (c : NvApiConsts) (api : NvApi σ) (hSession hProfile : Nat)
    (info : NVDRS_PROFILE) (s : σ) : Bool × List Event :=
  if info.numOfSettings > 0 then
    let r := api.NvAPI_DRS_EnumSettings hSession hProfile 0 info.numOfSettings
      (setArrayInit c info.numOfSettings) s
    let call := Event.EnumSettings hSession hProfile 0 info.numOfSettings
      (setArrayInit c info.numOfSettings) r.status r.count
      (writeBack (setArrayInit c info.numOfSettings) r.written)
    if r.status ≠ c.NVAPI_OK then
      (false, [call, .GetErrorMessage r.status (api.NvAPI_GetErrorMessage r.status r.state).1])
    else
      (true, [call])
  else
    (true, [])

/-- Outline of `display_profile_contents`: result and loud events. -/
def displayOutline {σ : Type} (c : NvApiConsts) (api : NvApi σ) (hSession hProfile : Nat)
    (s : σ) : Bool × List Event :=
  let r := api.NvAPI_DRS_GetProfileInfo hSession hProfile
    (NVDRS_PROFILE.init c.NVDRS_PROFILE_VER) s
  let call := Event.GetProfileInfo hSession hProfile (NVDRS_PROFILE.init c.NVDRS_PROFILE_VER)
    r.status r.value
  if r.status ≠ c.NVAPI_OK then
    (false, [call])
  else
    let a := applicationsOutline c api hSession hProfile r.value r.state
    if a.1 = false then
      (false, call :: a.2.2)
    else
      let t := settingsOutline c api hSession hProfile r.value a.2.1
      (t.1, call :: (a.2.2 ++ t.2))

/-! ## The service's answers to the calls of one `display_profile_contents` run

The calls as main.cpp 49, 66 and 82 make them, each in the state the previous
one left. -/

/-- The answer to the `GetProfileInfo` call of line 49. -/
def profileReply {σ : Type} (c : NvApiConsts) (api : NvApi σ) (hSession hProfile : Nat)
    (s : σ) : Reply NVDRS_PROFILE σ :=
  api.NvAPI_DRS_GetProfileInfo hSession hProfile (NVDRS_PROFILE.init c.NVDRS_PROFILE_VER) s

/-- The answer to the `EnumApplications` call of line 66, made when the
application count is positive. -/
def applicationsReply {σ : Type} (c : NvApiConsts) (api : NvApi σ) (hSession hProfile : Nat)
    (s : σ) : EnumReply NVDRS_APPLICATION σ :=
  api.NvAPI_DRS_EnumApplications hSession hProfile 0
    (profileReply c api hSession hProfile s).value.numOfApps
    (appArrayInit c (profileReply c api hSession hProfile s).value.numOfApps)
    (profileReply c api hSession hProfile s).state

/-- The service state when the setting block starts: after the application
enumeration when there was one (the application loop makes no call). -/
def settingsState {σ : Type} (c : NvApiConsts) (api : NvApi σ) (hSession hProfile : Nat)
    (s : σ) : σ :=
  if (profileReply c api hSession hProfile s).value.numOfApps > 0 then
    (applicationsReply c api hSession hProfile s).state
  else
    (profileReply c api hSession hProfile s).state

/-- The answer to the `EnumSettings` call of line 82, made when the setting
count is positive and the application block did not return. -/
def settingsReply {σ : Type} (c : NvApiConsts) (api : NvApi σ) (hSession hProfile : Nat)
    (s : σ) : EnumReply NVDRS_SETTING σ :=
  api.NvAPI_DRS_EnumSettings hSession hProfile 0
    (profileReply c api hSession hProfile s).value.numOfSettings
    (setArrayInit c (profileReply c api hSession hProfile s).value.numOfSettings)
    (settingsState c api hSession hProfile s)

/-! ## Concrete services for the concrete runs -/

/-- One profile of a table-backed service. -/
structure ProfileEntry where
  profileName : String
  isPredefined : Nat
  apps : List NVDRS_APPLICATION
  settings : List NVDRS_SETTING

/-- A well-behaved service backed by a fixed table of profiles. Its state counts
the enumeration calls it has served. The profile at index `i` has handle
`100 + i`; the session handle is 1. Status 0 is success, -7 the end of an
enumeration, -1 a failure. An enumeration writes at most `capacity` elements,
never more than the array holds, and reports how many it wrote. The runtime
that comes with it allocates vectors of up to 4096 elements. -/
def tableApi (profiles : List ProfileEntry) : NvApi Nat where
  NvAPI_Initialize := fun s => (0, s)
  NvAPI_GetErrorMessage := fun status s =>
    (if status = -7 then "NVAPI_END_ENUMERATION" else "NVAPI_ERROR", s)
  NvAPI_DRS_CreateSession := fun _ s => ⟨0, 1, s⟩
  NvAPI_DRS_LoadSettings := fun _ s => (0, s)
  NvAPI_DRS_EnumProfiles := fun _ index hProfile s =>
    if index < profiles.length then ⟨0, 100 + index, s⟩ else ⟨-7, hProfile, s⟩
  NvAPI_DRS_GetCurrentGlobalProfile := fun _ _ s => ⟨0, 100, s⟩
  NvAPI_DRS_GetProfileInfo := fun _ hProfile request s =>
    match profiles[hProfile - 100]? with
    | none => ⟨-1, request, s⟩
    | some p =>
      ⟨0, { request with profileName := p.profileName, isPredefined := p.isPredefined,
                         numOfApps := p.apps.length, numOfSettings := p.settings.length }, s⟩
  NvAPI_DRS_EnumApplications := fun _ hProfile start capacity buf s =>
    match profiles[hProfile - 100]? with
    | none => ⟨-1, 0, [], s + 1⟩
    | some p =>
      ⟨0, ((p.apps.drop start).take (min capacity buf.length)).length,
        (p.apps.drop start).take (min capacity buf.length), s + 1⟩
  NvAPI_DRS_EnumSettings := fun _ hProfile start capacity buf s =>
    match profiles[hProfile - 100]? with
    | none => ⟨-1, 0, [], s + 1⟩
    | some p =>
      ⟨0, ((p.settings.drop start).take (min capacity buf.length)).length,
        (p.settings.drop start).take (min capacity buf.length), s + 1⟩
  NvAPI_DRS_GetSettingNameFromId := fun settingId _ s =>
    (if settingId = 0x1F then "Example setting" else "Setting", s)
  NvAPI_DRS_DestroySession := fun _ s => s
  hardwareQuery := fun _ s => s
  allocApplications := fun n _ => decide (n ≤ 4096)
  allocSettings := fun n _ => decide (n ≤ 4096)

/-- A setting as a service reports it: identifier, location, type tag and the
three value fields. -/
def mkSetting (id : Nat) (location type : Int) (u32 : Nat) (bytes : List Nat)
    (text : String) : NVDRS_SETTING :=
  { version := 0x13020, settingName := "", settingId := id, settingType := type,
    settingLocation := location, isCurrentPredefined := 0, u32CurrentValue := u32,
    binaryCurrentValue := { valueLength := bytes.length, valueData := bytes },
    wszCurrentValue := text }

/-- The scenario of the specification: profile A with no application and one
integer setting (id 0x1F, value 1), profile B with one application and no
setting. -/
def scenarioProfiles : List ProfileEntry :=
  [{ profileName := "A", isPredefined := 0, apps := [],
     settings := [mkSetting 0x1F 0 0 1 [] ""] },
   { profileName := "B", isPredefined := 0,
     apps := [{ version := 0x44018, isPredefined := 0, appName := "game.exe",
                userFriendlyName := "My Game" }],
     settings := [] }]

/-- One profile with three settings: two stored in the profile itself
(location 0), one inherited (location 1). -/
def mixedProfiles : List ProfileEntry :=
  [{ profileName := "Mixed", isPredefined := 0, apps := [],
     settings := [mkSetting 1 0 0 7 [] "", mkSetting 2 1 0 9 [] "",
                  mkSetting 3 0 1 0 [0x0a, 0x1b] ""] }]

/-- One profile with one application and one setting. -/
def busyProfiles : List ProfileEntry :=
  [{ profileName := "Busy", isPredefined := 0,
     apps := [{ version := 0x44018, isPredefined := 0, appName := "tool.exe",
                userFriendlyName := "Tool" }],
     settings := [mkSetting 0x1F 0 0 1 [] ""] }]

/-- The table service over `busyProfiles`, except that every `EnumApplications`
call fails with status -1. -/
def appsFailApi : NvApi Nat :=
  { tableApi busyProfiles with
    NvAPI_DRS_EnumApplications := fun _ _ _ _ _ s => ⟨-1, 0, [], s + 1⟩ }

/-- One profile with two applications and no setting. -/
def twoAppProfiles : List ProfileEntry :=
  [{ profileName := "Pair", isPredefined := 0,
     apps := [{ version := 0x44018, isPredefined := 0, appName := "a.exe",
                userFriendlyName := "A" },
              { version := 0x44018, isPredefined := 0, appName := "b.exe",
                userFriendlyName := "B" }],
     settings := [] }]

/-- The status by which `growingApi` signals that the caller's array is too
small. The program names no such status: it is one more non-OK value. -/
def capacityTooSmall : Int := -200

/-- The table service over `scenarioProfiles`, except that the first enumeration
call it serves (state 0) answers `EnumSettings` with `capacityTooSmall`; every
later call is served from the table. -/
def growingApi : NvApi Nat :=
  { tableApi scenarioProfiles with
    NvAPI_DRS_EnumSettings := fun hSession hProfile start capacity buf s =>
      if s = 0 then ⟨capacityTooSmall, 0, [], s + 1⟩
      else (tableApi scenarioProfiles).NvAPI_DRS_EnumSettings hSession hProfile start
        capacity buf s }

/-- The table service over `scenarioProfiles`, except that every profile reports
4294967295 applications (status OK). The runtime allocates vectors of up to
4096 elements only. -/
def hugeCountApi : NvApi Nat :=
  { tableApi scenarioProfiles with
    NvAPI_DRS_GetProfileInfo := fun _ _ request s =>
      ⟨0, { request with profileName := "Huge", numOfApps := 4294967295 }, s⟩ }

/-- The table service over `scenarioProfiles`, except that `LoadSettings` fails
with status -1. -/
def loadFailApi : NvApi Nat :=
  { tableApi scenarioProfiles with NvAPI_DRS_LoadSettings := fun _ s => (-1, s) }

open nv.info

/-! ## Loops -/

theorem forLoop_atIndex {α σ : Type} (arr : List α)
    (step : α → σ → Except (Fault σ) (σ × List Event)) :
    ∀ (n i : Nat) (s : σ), i + n ≤ arr.length →
      forLoop (atIndex arr step) n i s = forEach step ((arr.drop i).take n) s := by
  intro n
  induction n with
  | zero => intro i s _; simp [forLoop, forEach]
  | succ n ih =>
    intro i s h
    have hi : i < arr.length := by omega
    rw [List.drop_eq_getElem_cons hi, List.take_succ_cons]
    simp only [forLoop, forEach, atIndex, List.getElem?_eq_getElem hi]
    cases hstep : step arr[i] s with
    | error f => rfl
    | ok r =>
      obtain ⟨s1, ev1⟩ := r
      simp only [ih (i + 1) s1 (by omega)]

theorem Fault.after_nil {σ : Type} (f : Fault σ) : f.after [] = f := by
  cases f <;> rfl

theorem forEach_pure {α σ : Type} (f : α → List Event) (l : List α) (s : σ) :
    forEach (fun x s => Except.ok (s, f x)) l s = .ok (s, l.flatMap f) := by
  induction l with
  | nil => simp [forEach]
  | cons x xs ih => simp [forEach, ih]

theorem forEach_skip {α σ : Type} (p : α → Prop) [DecidablePred p]
    (step : α → σ → Except (Fault σ) (σ × List Event)) (l : List α) :
    ∀ s : σ, forEach (fun x s => if ¬ p x then Except.ok (s, []) else step x s) l s
      = forEach step (l.filter (fun x => decide (p x))) s := by
  induction l with
  | nil => intro s; simp [forEach]
  | cons x xs ih =>
    intro s
    by_cases hx : p x
    · simp only [forEach, hx, not_true_eq_false, if_false, List.filter_cons, decide_True, if_true]
      cases step x s with
      | error f => rfl
      | ok r => obtain ⟨s1, ev1⟩ := r; simp only [ih s1]
    · have hfil : (x :: xs).filter (fun x => decide (p x)) = xs.filter (fun x => decide (p x)) := by
        simp [hx]
      rw [hfil]
      simp only [forEach, hx, not_false_eq_true, if_true]
      rw [ih s]
      cases forEach step (List.filter (fun x => decide (p x)) xs) s with
      | error f => simp [Fault.after_nil]
      | ok r => obtain ⟨s2, ev2⟩ := r; simp

theorem filterMap_loud {β : Type} (f : Event → Option β)
    (hf : ∀ e, e.quiet = true → f e = none) (ev : List Event) :
    (loud ev).filterMap f = ev.filterMap f := by
  induction ev with
  | nil => rfl
  | cons e es ih =>
    by_cases he : e.quiet = true
    · simp [loud, List.filter_cons, he, List.filterMap_cons, hf e he] at ih ⊢
      exact ih
    · simp [loud, List.filter_cons, he, List.filterMap_cons] at ih ⊢
      cases f e <;> simp [ih]

theorem loud_append (a b : List Event) : loud (a ++ b) = loud a ++ loud b := by
  simp [loud]

theorem loud_eq_nil {ev : List Event} (h : ∀ e ∈ ev, e.quiet = true) : loud ev = [] := by
  simp only [loud, List.filter_eq_nil_iff]
  intro e he
  simp [h e he]

theorem flatMap_single {α β : Type} (f : α → β) (l : List α) :
    l.flatMap (fun x => [f x]) = l.map f := by
  induction l with
  | nil => rfl
  | cons x xs ih => simp [ih]

theorem print_setting_info_eq {σ : Type} (c : NvApiConsts) (api : NvApi σ)
    (x : NVDRS_SETTING) (s : σ)
    (hb : x.settingType = c.NVDRS_BINARY_TYPE →
      x.binaryCurrentValue.valueLength ≤ x.binaryCurrentValue.valueData.length) :
    print_setting_info c api x s
      = .ok ((api.NvAPI_DRS_GetSettingNameFromId x.settingId x.settingName s).2,
             settingHead api x s ++ valueLines c x) := by
  unfold print_setting_info valueLines settingHead
  by_cases h1 : x.settingType = c.NVDRS_DWORD_TYPE
  · simp only [h1, if_true]
  · by_cases h2 : x.settingType = c.NVDRS_BINARY_TYPE
    · simp only [if_neg h1, if_pos h2]
      rw [forLoop_atIndex _ _ _ _ _ (by simpa using hb h2), forEach_pure, flatMap_single]
      simp
    · by_cases h3 : x.settingType = c.NVDRS_WSTRING_TYPE
      · simp only [if_neg h1, if_neg h2, if_pos h3]
      · simp only [if_neg h1, if_neg h2, if_neg h3]; simp

theorem quiet_settingHead {σ : Type} (api : NvApi σ) (x : NVDRS_SETTING) (s : σ) :
    ∀ e ∈ settingHead api x s, e.quiet = true := by
  simp [settingHead, Event.quiet]

theorem quiet_valueLines (c : NvApiConsts) (x : NVDRS_SETTING) :
    ∀ e ∈ valueLines c x, e.quiet = true := by
  intro e he
  unfold valueLines at he
  split_ifs at he
  · simp only [List.mem_singleton] at he; subst he; rfl
  · simp only [List.mem_append, List.mem_map, List.mem_singleton] at he
    rcases he with (rfl | ⟨b, _, rfl⟩) | rfl <;> rfl
  · simp only [List.mem_singleton] at he; subst he; rfl
  · simp at he

theorem aboutSetting_settingHead {σ : Type} (api : NvApi σ) (x : NVDRS_SETTING) (s : σ) :
    ∀ e ∈ settingHead api x s, e.aboutSetting = true := by
  simp [settingHead, Event.aboutSetting]

theorem aboutSetting_valueLines (c : NvApiConsts) (x : NVDRS_SETTING) :
    ∀ e ∈ valueLines c x, e.aboutSetting = true := by
  intro e he
  unfold valueLines at he
  split_ifs at he
  · simp only [List.mem_singleton] at he; subst he; rfl
  · simp only [List.mem_append, List.mem_map, List.mem_singleton] at he
    rcases he with (rfl | ⟨b, _, rfl⟩) | rfl <;> rfl
  · simp only [List.mem_singleton] at he; subst he; rfl
  · simp at he

theorem settingsShown_valueLines (c : NvApiConsts) (x : NVDRS_SETTING) :
    settingsShown (valueLines c x) = [] := by
  simp only [settingsShown, List.filterMap_eq_nil_iff]
  intro e he
  unfold valueLines at he
  split_ifs at he
  · simp only [List.mem_singleton] at he; subst he; rfl
  · simp only [List.mem_append, List.mem_map, List.mem_singleton] at he
    rcases he with (rfl | ⟨b, _, rfl⟩) | rfl <;> rfl
  · simp only [List.mem_singleton] at he; subst he; rfl
  · simp at he

theorem forEach_print_ok {σ : Type} (c : NvApiConsts) (api : NvApi σ) (l : List NVDRS_SETTING)
    (hb : ∀ x ∈ l, x.settingType = c.NVDRS_BINARY_TYPE →
      x.binaryCurrentValue.valueLength ≤ x.binaryCurrentValue.valueData.length) :
    ∀ s : σ, ∃ s1 ev, forEach (print_setting_info c api) l s = .ok (s1, ev) ∧
      (∀ e ∈ ev, e.quiet = true) ∧ (∀ e ∈ ev, e.aboutSetting = true) ∧
      settingsShown ev = l.map (·.settingId) := by
  induction l with
  | nil => intro s; exact ⟨s, [], rfl, by simp, by simp, rfl⟩
  | cons x xs ih =>
    intro s
    have hx := print_setting_info_eq c api x s (hb x (by simp))
    obtain ⟨s1, ev, hrun, hq, ha, hs⟩ :=
      ih (fun y hy => hb y (by simp [hy]))
        (api.NvAPI_DRS_GetSettingNameFromId x.settingId x.settingName s).2
    refine ⟨s1, (settingHead api x s ++ valueLines c x) ++ ev, ?_, ?_, ?_, ?_⟩
    · simp only [forEach, hx, hrun]
    · intro e he
      simp only [List.mem_append] at he
      rcases he with (he | he) | he
      · exact quiet_settingHead api x s e he
      · exact quiet_valueLines c x e he
      · exact hq e he
    · intro e he
      simp only [List.mem_append] at he
      rcases he with (he | he) | he
      · exact aboutSetting_settingHead api x s e he
      · exact aboutSetting_valueLines c x e he
      · exact ha e he
    · have h1 : settingsShown (settingHead api x s) = [x.settingId] := by
        simp [settingsShown, settingHead, Event.settingShown?]
      have h2 := settingsShown_valueLines c x
      simp only [settingsShown, List.filterMap_append, List.map_cons] at h1 h2 hs ⊢
      rw [h1, h2, hs]; rfl

theorem settingEvents_append (a b : List Event) :
    settingEvents (a ++ b) = settingEvents a ++ settingEvents b := by
  simp [settingEvents]

theorem settingEvents_eq_self {ev : List Event} (h : ∀ e ∈ ev, e.aboutSetting = true) :
    settingEvents ev = ev := by
  simp only [settingEvents, List.filter_eq_self]
  exact h

theorem filterMap_filter_of_none {β : Type} (f : Event → Option β) (p : Event → Bool)
    (h : ∀ e, p e = false → f e = none) (l : List Event) :
    (l.filter p).filterMap f = l.filterMap f := by
  induction l with
  | nil => rfl
  | cons e es ih =>
    cases hp : p e
    · simp [List.filter_cons, hp, List.filterMap_cons, h e hp, ih]
    · simp [List.filter_cons, hp, List.filterMap_cons, ih]

theorem settingsShown_settingEvents (ev : List Event) :
    settingsShown (settingEvents ev) = settingsShown ev := by
  apply filterMap_filter_of_none
  intro e he
  cases e <;> simp_all [Event.aboutSetting, Event.settingShown?]

theorem settingEvents_nil : settingEvents [] = [] := rfl

theorem settingEvents_cons (e : Event) (l : List Event) :
    settingEvents (e :: l) = if e.aboutSetting = true then e :: settingEvents l
      else settingEvents l := by
  by_cases h : e.aboutSetting = true <;> simp [settingEvents, List.filter_cons, h]

theorem settingEvents_appLines (l : List NVDRS_APPLICATION) :
    settingEvents (l.flatMap appLines) = [] := by
  simp only [settingEvents, List.filter_eq_nil_iff]
  intro e he
  obtain ⟨a, _, ha⟩ := List.mem_flatMap.1 he
  simp only [appLines, List.mem_cons, List.mem_singleton, List.not_mem_nil, or_false] at ha
  rcases ha with rfl | rfl | rfl <;> simp [Event.aboutSetting]

theorem length_writeBack {α : Type} (buf written : List α) :
    (writeBack buf written).length = buf.length := by
  simp only [writeBack, List.length_append, List.length_take, List.length_drop]
  omega

theorem mem_writeBack {α : Type} {buf written : List α} {x : α}
    (h : x ∈ writeBack buf written) : x ∈ written ∨ x ∈ buf := by
  simp only [writeBack, List.mem_append] at h
  rcases h with h | h
  · exact Or.inl (List.mem_of_mem_take h)
  · exact Or.inr (List.mem_of_mem_drop h)

theorem length_appArrayInit (c : NvApiConsts) (n : Nat) : (appArrayInit c n).length = n := by
  simp [appArrayInit]

theorem length_setArrayInit (c : NvApiConsts) (n : Nat) : (setArrayInit c n).length = n := by
  simp [setArrayInit]

theorem valueLength_setArrayInit (c : NvApiConsts) (n : Nat) :
    ∀ x ∈ setArrayInit c n, x.binaryCurrentValue.valueLength = 0 := by
  intro x hx
  rcases List.mem_or_eq_of_mem_set hx with h | h
  · rw [List.eq_of_mem_replicate h]; rfl
  · rw [h]; rfl

theorem quiet_appLines (l : List NVDRS_APPLICATION) :
    ∀ e ∈ l.flatMap appLines, e.quiet = true := by
  intro e he
  obtain ⟨a, _, ha⟩ := List.mem_flatMap.1 he
  simp only [appLines, List.mem_cons, List.mem_singleton, List.not_mem_nil, or_false] at ha
  rcases ha with rfl | rfl | rfl <;> rfl

theorem display_applications_run {σ : Type} (c : NvApiConsts) (api : NvApi σ)
    (hin : api.InBounds c) (hS hP : Nat) (info : NVDRS_PROFILE) (s : σ)
    (hal : 0 < info.numOfApps → api.allocApplications info.numOfApps s = true) :
    ∃ ev, display_applications c api hS hP info s
        = .ok ((applicationsOutline c api hS hP info s).1,
               (applicationsOutline c api hS hP info s).2.1, ev) ∧
      loud ev = (applicationsOutline c api hS hP info s).2.2 ∧ settingEvents ev = [] := by
  unfold display_applications applicationsOutline
  by_cases hn : info.numOfApps > 0
  · simp only [if_pos hn, hal hn, Bool.true_eq_false, if_false]
    by_cases hst : (api.NvAPI_DRS_EnumApplications hS hP 0 info.numOfApps
        (appArrayInit c info.numOfApps) s).status ≠ c.NVAPI_OK
    · simp only [if_pos hst]
      exact ⟨_, rfl, by simp [loud, print_error, Event.quiet],
        by simp [settingEvents, print_error, Event.aboutSetting]⟩
    · simp only [if_neg hst]
      rw [forLoop_atIndex _ _ _ _ _ (by
        rw [length_writeBack]; simpa using hin.1 hS hP 0 info.numOfApps _ s), forEach_pure]
      refine ⟨_, rfl, ?_, ?_⟩
      · rw [show ∀ (a : Event) (l : List Event), a :: l = [a] ++ l from fun _ _ => rfl,
          loud_append, loud_eq_nil (quiet_appLines _)]
        simp [loud, Event.quiet]
      · rw [settingEvents_cons, List.drop_zero, settingEvents_appLines]
        simp [Event.aboutSetting]
  · simp only [if_neg hn]
    exact ⟨[], rfl, rfl, rfl⟩

theorem display_settings_eq {σ : Type} (c : NvApiConsts) (api : NvApi σ)
    (hS hP : Nat) (info : NVDRS_PROFILE) (s : σ) (hn : info.numOfSettings > 0)
    (hal : api.allocSettings info.numOfSettings s = true)
    (hst : (api.NvAPI_DRS_EnumSettings hS hP 0 info.numOfSettings
        (setArrayInit c info.numOfSettings) s).status = c.NVAPI_OK)
    (hcount : (api.NvAPI_DRS_EnumSettings hS hP 0 info.numOfSettings
        (setArrayInit c info.numOfSettings) s).count ≤ info.numOfSettings)
    (s1 : σ) (ev : List Event)
    (hrun : forEach (print_setting_info c api)
        (currentProfileSettings c
          (writeBack (setArrayInit c info.numOfSettings)
            (api.NvAPI_DRS_EnumSettings hS hP 0 info.numOfSettings
              (setArrayInit c info.numOfSettings) s).written)
          (api.NvAPI_DRS_EnumSettings hS hP 0 info.numOfSettings
            (setArrayInit c info.numOfSettings) s).count)
        (api.NvAPI_DRS_EnumSettings hS hP 0 info.numOfSettings
          (setArrayInit c info.numOfSettings) s).state = .ok (s1, ev)) :
    display_settings c api hS hP info s =
      .ok (true, s1,
        Event.EnumSettings hS hP 0 info.numOfSettings (setArrayInit c info.numOfSettings)
          (api.NvAPI_DRS_EnumSettings hS hP 0 info.numOfSettings
            (setArrayInit c info.numOfSettings) s).status
          (api.NvAPI_DRS_EnumSettings hS hP 0 info.numOfSettings
            (setArrayInit c info.numOfSettings) s).count
          (writeBack (setArrayInit c info.numOfSettings)
            (api.NvAPI_DRS_EnumSettings hS hP 0 info.numOfSettings
              (setArrayInit c info.numOfSettings) s).written) :: ev) := by
  unfold currentProfileSettings at hrun
  unfold display_settings
  simp only [if_pos hn, hal, Bool.true_eq_false, ne_eq, hst, not_true_eq_false, if_false]
  rw [forLoop_atIndex _ _ _ _ _ (by
    rw [length_writeBack, length_setArrayInit]; simpa using hcount)]
  rw [forEach_skip (fun x : NVDRS_SETTING => x.settingLocation = c.NVDRS_CURRENT_PROFILE_LOCATION)]
  simp only [List.drop_zero]
  rw [hrun]

theorem bound_currentProfileSettings {σ : Type} (c : NvApiConsts) (api : NvApi σ)
    (hin : api.InBounds c) (hS hP n : Nat) (s : σ) :
    ∀ x ∈ currentProfileSettings c
        (writeBack (setArrayInit c n)
          (api.NvAPI_DRS_EnumSettings hS hP 0 n (setArrayInit c n) s).written)
        (api.NvAPI_DRS_EnumSettings hS hP 0 n (setArrayInit c n) s).count,
      x.settingType = c.NVDRS_BINARY_TYPE →
        x.binaryCurrentValue.valueLength ≤ x.binaryCurrentValue.valueData.length := by
  intro x hx hbin
  have hx1 := List.mem_of_mem_take (List.mem_of_mem_filter hx)
  rcases mem_writeBack hx1 with h | h
  · exact hin.2.2 hS hP 0 n _ s x h hbin
  · rw [valueLength_setArrayInit c n x h]; exact Nat.zero_le _

theorem display_settings_run {σ : Type} (c : NvApiConsts) (api : NvApi σ)
    (hin : api.InBounds c) (hS hP : Nat) (info : NVDRS_PROFILE) (s : σ)
    (hal : 0 < info.numOfSettings → api.allocSettings info.numOfSettings s = true) :
    ∃ s1 ev, display_settings c api hS hP info s
        = .ok ((settingsOutline c api hS hP info s).1, s1, ev) ∧
      loud ev = (settingsOutline c api hS hP info s).2 ∧
      ((settingsOutline c api hS hP info s).1 = false → settingEvents ev = []) := by
  by_cases hn : info.numOfSettings > 0
  · by_cases hst : (api.NvAPI_DRS_EnumSettings hS hP 0 info.numOfSettings
        (setArrayInit c info.numOfSettings) s).status = c.NVAPI_OK
    · have hcount : (api.NvAPI_DRS_EnumSettings hS hP 0 info.numOfSettings
          (setArrayInit c info.numOfSettings) s).count ≤ info.numOfSettings := by
        simpa [length_setArrayInit] using hin.2.1 hS hP 0 info.numOfSettings
          (setArrayInit c info.numOfSettings) s
      obtain ⟨s1, ev, hrun, hq, _, _⟩ := forEach_print_ok c api _
        (bound_currentProfileSettings c api hin hS hP info.numOfSettings s)
        (api.NvAPI_DRS_EnumSettings hS hP 0 info.numOfSettings
          (setArrayInit c info.numOfSettings) s).state
      rw [display_settings_eq c api hS hP info s hn (hal hn) hst hcount s1 ev hrun]
      have h1 : settingsOutline c api hS hP info s =
          (true, [Event.EnumSettings hS hP 0 info.numOfSettings
            (setArrayInit c info.numOfSettings)
            (api.NvAPI_DRS_EnumSettings hS hP 0 info.numOfSettings
              (setArrayInit c info.numOfSettings) s).status
            (api.NvAPI_DRS_EnumSettings hS hP 0 info.numOfSettings
              (setArrayInit c info.numOfSettings) s).count
            (writeBack (setArrayInit c info.numOfSettings)
              (api.NvAPI_DRS_EnumSettings hS hP 0 info.numOfSettings
                (setArrayInit c info.numOfSettings) s).written)]) := by
        simp [settingsOutline, hn, hst]
      rw [h1]
      refine ⟨s1, _, rfl, ?_, ?_⟩
      · rw [show ∀ (a : Event) (l : List Event), a :: l = [a] ++ l from fun _ _ => rfl,
          loud_append, loud_eq_nil hq]
        simp [loud, Event.quiet]
      · intro h; cases h
    · unfold display_settings settingsOutline
      simp only [if_pos hn, hal hn, Bool.true_eq_false, if_false, ne_eq, hst,
        not_false_eq_true, if_true]
      exact ⟨_, _, rfl, by simp [loud, print_error, Event.quiet],
        fun _ => by simp [settingEvents, print_error, Event.aboutSetting]⟩
  · unfold display_settings settingsOutline
    simp only [if_neg hn]
    exact ⟨s, [], rfl, rfl, fun _ => rfl⟩

theorem loud_nil : loud [] = [] := rfl

theorem loud_cons (e : Event) (l : List Event) :
    loud (e :: l) = if e.quiet = true then loud l else e :: loud l := by
  by_cases h : e.quiet = true <;> simp [loud, List.filter_cons, h]

theorem display_outline {σ : Type} (c : NvApiConsts) (api : NvApi σ)
    (hin : api.InBounds c) (hal : api.Allocates c) (hS hP : Nat) (s : σ) :
    ∃ s1 ev, display_profile_contents c api hS hP s
        = .ok ((displayOutline c api hS hP s).1, s1, ev) ∧
      loud ev = (displayOutline c api hS hP s).2 ∧
      ((displayOutline c api hS hP s).1 = false → settingEvents ev = []) := by
  have halA := fun s1 => (hal hS hP s s1).1
  have halS := fun s1 => (hal hS hP s s1).2
  revert halA halS
  unfold display_profile_contents displayOutline
  dsimp only
  generalize api.NvAPI_DRS_GetProfileInfo hS hP (NVDRS_PROFILE.init c.NVDRS_PROFILE_VER) s = r
  intro halA halS
  by_cases h0 : r.status ≠ c.NVAPI_OK
  · simp only [if_pos h0]
    exact ⟨_, _, rfl, by simp [loud_cons, loud_nil, Event.quiet],
      fun _ => by simp [settingEvents_cons, settingEvents_nil, Event.aboutSetting]⟩
  · simp only [if_neg h0]
    obtain ⟨evA, hA, hlA, hsA⟩ := display_applications_run c api hin hS hP r.value r.state
      (halA r.state)
    rw [hA]
    generalize applicationsOutline c api hS hP r.value r.state = a at hlA ⊢
    obtain ⟨bA, sA, lA⟩ := a
    cases bA
    · refine ⟨_, _, rfl, ?_, fun _ => ?_⟩
      · simp only [List.cons_append, loud_cons, loud_append, loud_nil, Event.quiet] at hlA ⊢
        simp [hlA]
      · simp [List.cons_append, settingEvents_cons, settingEvents_append, settingEvents_nil,
          Event.aboutSetting, hsA]
    · obtain ⟨s2, evS, hSt, hlS, hsS⟩ := display_settings_run c api hin hS hP r.value sA
        (halS sA)
      simp only [hSt]
      generalize settingsOutline c api hS hP r.value sA = t at hlS hsS ⊢
      obtain ⟨bS, lS⟩ := t
      cases bS
      · refine ⟨_, _, rfl, ?_, fun _ => ?_⟩
        · simp only [List.cons_append, loud_cons, loud_append, loud_nil, Event.quiet]
            at hlA hlS ⊢
          simp [hlA, hlS]
        · simp [List.cons_append, settingEvents_cons, settingEvents_append, settingEvents_nil,
            Event.aboutSetting, hsA, hsS]
      · refine ⟨_, _, rfl, ?_, fun h => ?_⟩
        · simp only [List.cons_append, loud_cons, loud_append, loud_nil, Event.quiet]
            at hlA hlS ⊢
          simp [hlA, hlS]
        · simp at h

/-! ## The profile loop -/

theorem visits_loud (ev : List Event) : visits (loud ev) = visits ev :=
  filterMap_loud _ (by intro e he; cases e <;> simp_all [Event.quiet, Event.visit?]) ev

theorem destroyCalls_loud (ev : List Event) : destroyCalls (loud ev) = destroyCalls ev :=
  filterMap_loud _ (by intro e he; cases e <;> simp_all [Event.quiet, Event.destroy?]) ev

theorem visits_displayOutline {σ : Type} (c : NvApiConsts) (api : NvApi σ) (hS hP : Nat) (s : σ) :
    visits (displayOutline c api hS hP s).2 = [.displayed hP] := by
  unfold displayOutline applicationsOutline settingsOutline
  dsimp only
  split_ifs <;> simp [visits, Event.visit?]

theorem destroyCalls_displayOutline {σ : Type} (c : NvApiConsts) (api : NvApi σ) (hS hP : Nat)
    (s : σ) : destroyCalls (displayOutline c api hS hP s).2 = [] := by
  unfold displayOutline applicationsOutline settingsOutline
  dsimp only
  split_ifs <;> simp [destroyCalls, Event.destroy?]

theorem display_visits {σ : Type} (c : NvApiConsts) (api : NvApi σ) (hin : api.InBounds c) (hal : api.Allocates c)
    (hS hP : Nat) (s : σ) :
    ∃ b s1 ev, display_profile_contents c api hS hP s = .ok (b, s1, ev) ∧
      visits ev = [.displayed hP] ∧ destroyCalls ev = [] := by
  obtain ⟨s1, ev, hrun, hl, _⟩ := display_outline c api hin hal hS hP s
  refine ⟨_, s1, ev, hrun, ?_, ?_⟩
  · rw [← visits_loud, hl, visits_displayOutline]
  · rw [← destroyCalls_loud, hl, destroyCalls_displayOutline]

theorem profile_loop_run {σ : Type} (c : NvApiConsts) (api : NvApi σ) (hin : api.InBounds c) (hal : api.Allocates c)
    (hS : Nat) :
    ∀ (n index : Nat), index + n < 2 ^ 32 →
      (∀ i, index ≤ i → i < index + n → ∀ h hP s,
        (api.NvAPI_DRS_EnumProfiles h i hP s).status = c.NVAPI_OK) →
      (∀ h hP s, (api.NvAPI_DRS_EnumProfiles h (index + n) hP s).status ≠ c.NVAPI_OK) →
      ∀ (fuel hP : Nat) (s : σ), n < fuel →
      ∃ (st : Int) (s1 : σ) (ev : List Event) (handle : Nat → Nat),
        profile_loop c api hS fuel index hP s = .ok (st, s1, ev) ∧ st ≠ c.NVAPI_OK ∧
        visits ev = (List.range' index n).flatMap
            (fun i => [Visit.enumerated i c.NVAPI_OK (handle i), Visit.displayed (handle i)])
          ++ [Visit.enumerated (index + n) st (handle (index + n))] ∧
        destroyCalls ev = [] := by
  intro n
  induction n with
  | zero =>
    intro index _ _ hend fuel hP s hfuel
    obtain ⟨fuel, rfl⟩ : ∃ f, fuel = f + 1 := ⟨fuel - 1, by omega⟩
    have hne := hend hS hP s
    rw [Nat.add_zero] at hne
    refine ⟨(api.NvAPI_DRS_EnumProfiles hS index hP s).status,
      (api.NvAPI_DRS_EnumProfiles hS index hP s).state,
      [Event.EnumProfiles hS index (api.NvAPI_DRS_EnumProfiles hS index hP s).status
        (api.NvAPI_DRS_EnumProfiles hS index hP s).value],
      fun _ => (api.NvAPI_DRS_EnumProfiles hS index hP s).value, ?_, hne, ?_, ?_⟩
    · simp only [profile_loop, if_neg hne]
    · simp [visits, Event.visit?]
    · simp [destroyCalls, Event.destroy?]
  | succ n ih =>
    intro index hlt hok hend fuel hP s hfuel
    obtain ⟨fuel, rfl⟩ : ∃ f, fuel = f + 1 := ⟨fuel - 1, by omega⟩
    have hst := hok index (le_refl _) (by omega) hS hP s
    obtain ⟨b, s1, ev1, hd, hv1, hd1⟩ := display_visits c api hin hal hS
      (api.NvAPI_DRS_EnumProfiles hS index hP s).value
      (api.NvAPI_DRS_EnumProfiles hS index hP s).state
    have hmod : (index + 1) % 2 ^ 32 = index + 1 := Nat.mod_eq_of_lt (by omega)
    obtain ⟨st, s2, ev2, handle, hrec, hne, hv2, hd2⟩ :=
      ih (index + 1) (by omega) (fun i h1 h2 => hok i (by omega) (by omega))
        (by
          intro h hP s
          have := hend h hP s
          rwa [show index + (n + 1) = index + 1 + n by omega] at this)
        fuel (api.NvAPI_DRS_EnumProfiles hS index hP s).value s1 (by omega)
    refine ⟨st, s2,
      Event.EnumProfiles hS index (api.NvAPI_DRS_EnumProfiles hS index hP s).status
        (api.NvAPI_DRS_EnumProfiles hS index hP s).value ::
        Event.print (.profilePosition index) :: (ev1 ++ ev2),
      fun i => if i = index then
      (api.NvAPI_DRS_EnumProfiles hS index hP s).value else handle i, ?_, hne, ?_, ?_⟩
    · simp only [profile_loop, if_pos hst, hd, hmod, hrec]
    · have hcongr : (List.range' (index + 1) n).flatMap
            (fun i => [Visit.enumerated i c.NVAPI_OK
                (if i = index then (api.NvAPI_DRS_EnumProfiles hS index hP s).value
                  else handle i),
              Visit.displayed (if i = index then
                (api.NvAPI_DRS_EnumProfiles hS index hP s).value else handle i)])
          = (List.range' (index + 1) n).flatMap
            (fun i => [Visit.enumerated i c.NVAPI_OK (handle i), Visit.displayed (handle i)]) := by
        simp only [List.flatMap]
        congr 1
        apply List.map_congr_left
        intro i hi
        have : i ≠ index := by
          have := (List.mem_range'_1.1 hi).1
          omega
        simp [this]
      have hlast : index + (n + 1) ≠ index := by omega
      simp only [visits, List.filterMap_cons, List.filterMap_append, Event.visit?] at hv1 hv2 ⊢
      rw [hv1, hv2, List.range'_succ, List.flatMap_cons, hcongr, hst]
      have hlast2 : index + 1 + n ≠ index := by omega
      simp [hlast2, show index + (n + 1) = index + 1 + n by omega]
    · simp only [destroyCalls, List.filterMap_cons, List.filterMap_append, Event.destroy?]
        at hd1 hd2 ⊢
      rw [hd1, hd2]; rfl

theorem tableApi_inBounds (c : NvApiConsts) (profiles : List ProfileEntry)
    (h : ∀ p ∈ profiles, ∀ x ∈ p.settings,
      x.binaryCurrentValue.valueLength ≤ x.binaryCurrentValue.valueData.length) :
    (tableApi profiles).InBounds c := by
  refine ⟨?_, ?_, ?_⟩
  · intro hS hP start n buf s
    simp only [tableApi]
    split
    · exact Nat.zero_le _
    · simp only [List.length_take]; omega
  · intro hS hP start n buf s
    simp only [tableApi]
    split
    · exact Nat.zero_le _
    · simp only [List.length_take]; omega
  · intro hS hP start n buf s x hx _
    simp only [tableApi] at hx
    split at hx
    · simp at hx
    · rename_i p hp
      exact h p (List.getElem?_mem hp) x
        (List.mem_of_mem_drop (List.mem_of_mem_take hx))

theorem tableApi_enum_ok (profiles : List ProfileEntry) (i : Nat) (hi : i < profiles.length)
    (hS hP s : Nat) : ((tableApi profiles).NvAPI_DRS_EnumProfiles hS i hP s).status = 0 := by
  simp [tableApi, hi]

theorem tableApi_enum_end (profiles : List ProfileEntry) (hS hP s : Nat) :
    ((tableApi profiles).NvAPI_DRS_EnumProfiles hS profiles.length hP s).status = -7 := by
  simp [tableApi]

theorem tableApi_allocates (c : NvApiConsts) (profiles : List ProfileEntry)
    (h : ∀ p ∈ profiles, p.apps.length ≤ 4096 ∧ p.settings.length ≤ 4096) :
    (tableApi profiles).Allocates c := by
  intro hS hP s s1
  cases hp : profiles[hP - 100]? with
  | none => simp [tableApi, hp, NVDRS_PROFILE.init]
  | some p =>
    have hlen := h p (List.getElem?_mem hp)
    simp [tableApi, hp, hlen.1, hlen.2]

theorem scenario_allocates : (tableApi scenarioProfiles).Allocates headerValues :=
  tableApi_allocates _ _ (by decide)

theorem scenario_inBounds : (tableApi scenarioProfiles).InBounds headerValues :=
  tableApi_inBounds _ _ (by decide)

theorem mixed_inBounds : (tableApi mixedProfiles).InBounds headerValues :=
  tableApi_inBounds _ _ (by decide)

/-! ## Claims about the profile walk -/

theorem visits_report_unless_ok {σ : Type} (c : NvApiConsts) (api : NvApi σ) (st : Int) (s : σ) :
    visits (report_unless_ok c api st s).2 = [] := by
  unfold report_unless_ok
  split <;> simp [visits, print_error, Event.visit?]

/-- Counterexample to C1: `EnumProfiles` answers OK at indices 0 and 1 and the
end of enumeration at index 2, but the first profile reports 4294967295
applications and the vector of main.cpp 59 cannot be allocated. The exception
leaves `display_profile_contents` and `enumerate_profiles_on_system` (nothing
catches it): the walk is `EnumProfiles(0)` and the display of its profile, and
indices 1 and 2 are never asked for. -/
theorem allocation_failure_ends_the_walk :
    (∀ i, i < 2 → ∀ hS hP s,
      (hugeCountApi.NvAPI_DRS_EnumProfiles hS i hP s).status = headerValues.NVAPI_OK) ∧
    (∀ hS hP s,
      (hugeCountApi.NvAPI_DRS_EnumProfiles hS 2 hP s).status ≠ headerValues.NVAPI_OK) ∧
    ∃ (s1 : Nat) (ev : List Event),
      enumerate_profiles_on_system headerValues hugeCountApi 3 0
        = .error (.allocation s1 ev) ∧
      visits ev = [Visit.enumerated 0 headerValues.NVAPI_OK 100, Visit.displayed 100] :=
  ⟨fun i hi hS hP s => tableApi_enum_ok scenarioProfiles i hi hS hP s,
   fun hS hP s => by
    have h := tableApi_enum_end scenarioProfiles hS hP s
    change ((tableApi scenarioProfiles).NvAPI_DRS_EnumProfiles hS 2 hP s).status = -7 at h
    change ((tableApi scenarioProfiles).NvAPI_DRS_EnumProfiles hS 2 hP s).status ≠ 0
    rw [h]; decide,
   _, _, rfl, rfl⟩

/-- C1, amended: when `EnumProfiles` answers OK at every index below `k` and a
non-OK status at index `k` (`k < 2^32`), and every buffer the displays ask for
can be allocated, `enumerate_profiles_on_system` returns (given more than `k`
units of fuel), and its walk over the profiles is exactly:
for `i = 0, ..., k-1` in this order, the call `EnumProfiles(i)` answering OK and
a handle, followed by one `display_profile_contents` call on that handle; then
the call `EnumProfiles(k)` with its non-OK status. No index is revisited or
skipped, whatever the display calls return. -/
theorem enumerate_profiles_visits_each_index_once {σ : Type} (c : NvApiConsts) (api : NvApi σ)
    (hin : api.InBounds c) (hal : api.Allocates c) (k : Nat) (hk : k < 2 ^ 32)
    (hok : ∀ i, i < k → ∀ hS hP s,
      (api.NvAPI_DRS_EnumProfiles hS i hP s).status = c.NVAPI_OK)
    (hend : ∀ hS hP s, (api.NvAPI_DRS_EnumProfiles hS k hP s).status ≠ c.NVAPI_OK)
    (fuel : Nat) (hfuel : k < fuel) (s : σ) :
    ∃ (s1 : σ) (ev : List Event) (st : Int) (handle : Nat → Nat),
      enumerate_profiles_on_system c api fuel s = .ok (s1, ev) ∧ st ≠ c.NVAPI_OK ∧
      visits ev = (List.range k).flatMap
          (fun i => [Visit.enumerated i c.NVAPI_OK (handle i), Visit.displayed (handle i)])
        ++ [Visit.enumerated k st (handle k)] := by
  unfold enumerate_profiles_on_system
  dsimp only
  generalize (report_unless_ok c api (api.NvAPI_DRS_LoadSettings _ _).1 _).1 = s2
  generalize (api.NvAPI_DRS_CreateSession 0 _).value = hS
  obtain ⟨st, s3, ev3, handle, hrun, hne, hv, _⟩ :=
    profile_loop_run c api hin hal hS k 0 (by omega) (fun i _ h2 => hok i (by omega))
      (by simpa using hend) fuel 0 s2 hfuel
  rw [hrun]
  refine ⟨_, _, st, handle, rfl, hne, ?_⟩
  have hpost : visits (report_loop_exit c api st s3).2 = [] := by
    unfold report_loop_exit
    split_ifs <;> simp [visits, print_error, Event.visit?]
  have h0 := visits_report_unless_ok c api
  simp only [visits, List.filterMap_append, List.filterMap_cons, List.filterMap_nil,
    Event.visit?] at h0 hpost hv ⊢
  rw [h0, h0, h0, hpost, hv]
  simp [List.range_eq_range']

/-- Witness for the amended C1: the two-profile scenario of the specification,
`k = 2`. -/
theorem enumerate_profiles_visits_each_index_once_witness :
    ∃ (s1 : Nat) (ev : List Event) (st : Int) (handle : Nat → Nat),
      enumerate_profiles_on_system headerValues (tableApi scenarioProfiles) 3 0 = .ok (s1, ev) ∧
      st ≠ headerValues.NVAPI_OK ∧
      visits ev = (List.range 2).flatMap
          (fun i => [Visit.enumerated i headerValues.NVAPI_OK (handle i),
                     Visit.displayed (handle i)])
        ++ [Visit.enumerated 2 st (handle 2)] :=
  enumerate_profiles_visits_each_index_once headerValues (tableApi scenarioProfiles)
    scenario_inBounds scenario_allocates 2 (by decide)
    (fun i hi hS hP s => tableApi_enum_ok scenarioProfiles i hi hS hP s)
    (fun hS hP s => by
      have h := tableApi_enum_end scenarioProfiles hS hP s
      change ((tableApi scenarioProfiles).NvAPI_DRS_EnumProfiles hS 2 hP s).status = -7 at h
      rw [h]; decide) 3 (by decide) 0

/-- C7: for a setting with one of the three known type tags, `print_setting_info`
returns, and after the four opening events (name lookup, name, identifier,
predefined flag) it emits exactly one value rendering, chosen by the tag:
DWORD gives the line with `u32CurrentValue`; BINARY, when `valueLength` does not
exceed the data array, gives the length line, then one byte line for each of
`valueData[0..valueLength-1]` in index order (exactly `valueLength` of them),
then the line end; WSTRING gives the line with `wszCurrentValue`. Two settings
that agree on the tag, the opening fields and the active value give the same
result: the inactive value fields, the version and the location play no part. -/
theorem print_setting_info_renders_by_tag {σ : Type} (c : NvApiConsts) (api : NvApi σ)
    (x : NVDRS_SETTING) (s : σ) :
    (x.settingType = c.NVDRS_DWORD_TYPE →
      print_setting_info c api x s
        = .ok ((api.NvAPI_DRS_GetSettingNameFromId x.settingId x.settingName s).2,
               settingHead api x s ++ [.print (.settingValueDword x.u32CurrentValue)])) ∧
    (x.settingType = c.NVDRS_BINARY_TYPE →
      x.binaryCurrentValue.valueLength ≤ x.binaryCurrentValue.valueData.length →
      print_setting_info c api x s
        = .ok ((api.NvAPI_DRS_GetSettingNameFromId x.settingId x.settingName s).2,
               settingHead api x s
                 ++ [.print (.settingBinaryLength x.binaryCurrentValue.valueLength)]
                 ++ (x.binaryCurrentValue.valueData.take
                       x.binaryCurrentValue.valueLength).map
                     (fun b => Event.print (.settingBinaryByte b))
                 ++ [.print .settingBinaryEnd]) ∧
      (x.binaryCurrentValue.valueData.take x.binaryCurrentValue.valueLength).length
        = x.binaryCurrentValue.valueLength) ∧
    (x.settingType = c.NVDRS_WSTRING_TYPE →
      print_setting_info c api x s
        = .ok ((api.NvAPI_DRS_GetSettingNameFromId x.settingId x.settingName s).2,
               settingHead api x s ++ [.print (.settingValueText x.wszCurrentValue)])) ∧
    (∀ y : NVDRS_SETTING,
      y.settingType = x.settingType → y.settingId = x.settingId →
      y.settingName = x.settingName → y.isCurrentPredefined = x.isCurrentPredefined →
      (x.settingType = c.NVDRS_DWORD_TYPE → y.u32CurrentValue = x.u32CurrentValue) →
      (x.settingType = c.NVDRS_BINARY_TYPE → y.binaryCurrentValue = x.binaryCurrentValue) →
      (x.settingType = c.NVDRS_WSTRING_TYPE → y.wszCurrentValue = x.wszCurrentValue) →
      print_setting_info c api y s = print_setting_info c api x s) := by
  refine ⟨?_, ?_, ?_, ?_⟩
  · intro h
    rw [print_setting_info_eq c api x s (fun hb => absurd (h.symm.trans hb) c.dword_ne_binary)]
    simp [valueLines, h]
  · intro h hlen
    refine ⟨?_, by simpa using hlen⟩
    rw [print_setting_info_eq c api x s (fun _ => hlen)]
    have h1 : x.settingType ≠ c.NVDRS_DWORD_TYPE := fun h1 => c.dword_ne_binary (h1.symm.trans h)
    simp [valueLines, h, h1, if_neg (Ne.symm c.dword_ne_binary)]
  · intro h
    have h1 : x.settingType ≠ c.NVDRS_DWORD_TYPE := fun h1 => c.dword_ne_wstring (h1.symm.trans h)
    have h2 : x.settingType ≠ c.NVDRS_BINARY_TYPE :=
      fun h2 => c.binary_ne_wstring (h2.symm.trans h)
    rw [print_setting_info_eq c api x s (fun hb => absurd hb h2)]
    simp only [valueLines, if_neg h1, if_neg h2, if_pos h]
  · intro y ht hid hname hpre hd hb hw
    unfold print_setting_info
    simp only [ht, hid, hname, hpre]
    by_cases h1 : x.settingType = c.NVDRS_DWORD_TYPE
    · simp only [if_pos h1, hd h1]
    · by_cases h2 : x.settingType = c.NVDRS_BINARY_TYPE
      · simp only [if_neg h1, if_pos h2, hb h2]
      · by_cases h3 : x.settingType = c.NVDRS_WSTRING_TYPE
        · simp only [if_neg h1, if_neg h2, if_pos h3, hw h3]
        · simp only [if_neg h1, if_neg h2, if_neg h3]

/-- Witness for C7: Integer 7, Binary `[0x0a, 0x1b]` and Text "Foo". -/
theorem print_setting_info_renders_by_tag_witness :
    print_setting_info headerValues (tableApi []) (mkSetting 5 0 0 7 [] "") 0
      = .ok (0, [.GetSettingNameFromId 5 "Setting", .print (.settingName "Setting"),
                 .print (.settingId 5), .print (.settingPredefined 0),
                 .print (.settingValueDword 7)]) ∧
    print_setting_info headerValues (tableApi []) (mkSetting 5 0 1 0 [0x0a, 0x1b] "") 0
      = .ok (0, [.GetSettingNameFromId 5 "Setting", .print (.settingName "Setting"),
                 .print (.settingId 5), .print (.settingPredefined 0),
                 .print (.settingBinaryLength 2), .print (.settingBinaryByte 0x0a),
                 .print (.settingBinaryByte 0x1b), .print .settingBinaryEnd]) ∧
    print_setting_info headerValues (tableApi []) (mkSetting 5 0 3 0 [] "Foo") 0
      = .ok (0, [.GetSettingNameFromId 5 "Setting", .print (.settingName "Setting"),
                 .print (.settingId 5), .print (.settingPredefined 0),
                 .print (.settingValueText "Foo")]) :=
  ⟨(print_setting_info_renders_by_tag headerValues (tableApi [])
      (mkSetting 5 0 0 7 [] "") 0).1 rfl,
   ((print_setting_info_renders_by_tag headerValues (tableApi [])
      (mkSetting 5 0 1 0 [0x0a, 0x1b] "") 0).2.1 rfl (by decide)).1,
   (print_setting_info_renders_by_tag headerValues (tableApi [])
      (mkSetting 5 0 3 0 [] "Foo") 0).2.2.1 rfl⟩

/-- Counterexample to C8: a setting whose type tag is 2, none of the three known
tags, is not rejected. `print_setting_info` returns normally, having printed the
opening lines and no value line; no failure is signalled. -/
theorem unknown_tag_completes_without_failure :
    headerValues.NVDRS_DWORD_TYPE ≠ 2 ∧ headerValues.NVDRS_BINARY_TYPE ≠ 2 ∧
    headerValues.NVDRS_WSTRING_TYPE ≠ 2 ∧
    print_setting_info headerValues (tableApi []) (mkSetting 5 0 2 7 [] "") 0
      = .ok (0, [.GetSettingNameFromId 5 "Setting", .print (.settingName "Setting"),
                 .print (.settingId 5), .print (.settingPredefined 0)]) :=
  ⟨by decide, by decide, by decide, rfl⟩

/-- C8, amended: for a setting whose type tag is none of the three known tags,
`print_setting_info` returns normally with exactly its four opening events (name
lookup, name, identifier, predefined flag) and no value line. -/
theorem print_setting_info_unknown_tag {σ : Type} (c : NvApiConsts) (api : NvApi σ)
    (x : NVDRS_SETTING) (s : σ)
    (h1 : x.settingType ≠ c.NVDRS_DWORD_TYPE) (h2 : x.settingType ≠ c.NVDRS_BINARY_TYPE)
    (h3 : x.settingType ≠ c.NVDRS_WSTRING_TYPE) :
    print_setting_info c api x s
      = .ok ((api.NvAPI_DRS_GetSettingNameFromId x.settingId x.settingName s).2,
             settingHead api x s) := by
  rw [print_setting_info_eq c api x s (fun hb => absurd hb h2)]
  simp [valueLines, h1, h2, h3]

/-- Witness for the amended C8: the ANSI-string tag 2 of the header. -/
theorem print_setting_info_unknown_tag_witness :
    print_setting_info headerValues (tableApi []) (mkSetting 9 0 2 0 [] "abc") 4
      = .ok (4, settingHead (tableApi []) (mkSetting 9 0 2 0 [] "abc") 4) :=
  print_setting_info_unknown_tag headerValues (tableApi []) (mkSetting 9 0 2 0 [] "abc") 4
    (by decide) (by decide) (by decide)

/-! ## Claims about `display_profile_contents` -/

theorem mem_loud {e : Event} {ev : List Event} : e ∈ loud ev ↔ e ∈ ev ∧ e.quiet = false := by
  simp [loud]

theorem statuses_loud (ev : List Event) : statuses (loud ev) = statuses ev :=
  filterMap_loud _ (by intro e he; cases e <;> simp_all [Event.quiet, Event.status?]) ev

theorem enumApplicationsCalls_loud (ev : List Event) :
    enumApplicationsCalls (loud ev) = enumApplicationsCalls ev :=
  filterMap_loud _ (by intro e he; cases e <;> simp_all [Event.quiet, Event.enumApplications?]) ev

theorem enumSettingsCalls_loud (ev : List Event) :
    enumSettingsCalls (loud ev) = enumSettingsCalls ev :=
  filterMap_loud _ (by intro e he; cases e <;> simp_all [Event.quiet, Event.enumSettings?]) ev

theorem printErrorCalls_loud (ev : List Event) :
    printErrorCalls (loud ev) = printErrorCalls ev :=
  filterMap_loud _ (by intro e he; cases e <;> simp_all [Event.quiet, Event.printError?]) ev

theorem outline_true_iff {σ : Type} (c : NvApiConsts) (api : NvApi σ) (hS hP : Nat) (s : σ) :
    ((displayOutline c api hS hP s).1 = true ↔
      ∀ st ∈ statuses (displayOutline c api hS hP s).2, st = c.NVAPI_OK) := by
  unfold displayOutline applicationsOutline settingsOutline
  dsimp only
  split_ifs <;> simp_all [statuses, Event.status?]

theorem outline_profile_info_failed {σ : Type} (c : NvApiConsts) (api : NvApi σ)
    (hS hP : Nat) (s : σ) (a p : Nat) (req : NVDRS_PROFILE) (st : Int) (info : NVDRS_PROFILE)
    (hmem : Event.GetProfileInfo a p req st info ∈ (displayOutline c api hS hP s).2)
    (hst : st ≠ c.NVAPI_OK) :
    (displayOutline c api hS hP s).1 = false ∧
      enumApplicationsCalls (displayOutline c api hS hP s).2 = [] ∧
      enumSettingsCalls (displayOutline c api hS hP s).2 = [] := by
  revert hmem
  unfold displayOutline applicationsOutline settingsOutline
  dsimp only
  split_ifs <;>
    simp_all [enumApplicationsCalls, enumSettingsCalls, Event.enumApplications?,
      Event.enumSettings?]

theorem outline_applications_failed {σ : Type} (c : NvApiConsts) (api : NvApi σ)
    (hS hP : Nat) (s : σ) (a p start cap : Nat) (buf : List NVDRS_APPLICATION) (st : Int)
    (n : Nat) (res : List NVDRS_APPLICATION)
    (hmem : Event.EnumApplications a p start cap buf st n res ∈ (displayOutline c api hS hP s).2)
    (hst : st ≠ c.NVAPI_OK) :
    (displayOutline c api hS hP s).1 = false ∧
      enumSettingsCalls (displayOutline c api hS hP s).2 = [] ∧
      printErrorCalls (displayOutline c api hS hP s).2 = [st] := by
  revert hmem
  unfold displayOutline applicationsOutline settingsOutline
  dsimp only
  split_ifs <;>
    simp_all [enumSettingsCalls, Event.enumSettings?, printErrorCalls, Event.printError?]

theorem outline_settings_failed {σ : Type} (c : NvApiConsts) (api : NvApi σ)
    (hS hP : Nat) (s : σ) (a p start cap : Nat) (buf : List NVDRS_SETTING) (st : Int)
    (n : Nat) (res : List NVDRS_SETTING)
    (hmem : Event.EnumSettings a p start cap buf st n res ∈ (displayOutline c api hS hP s).2)
    (hst : st ≠ c.NVAPI_OK) :
    (displayOutline c api hS hP s).1 = false ∧
      printErrorCalls (displayOutline c api hS hP s).2 = [st] := by
  revert hmem
  unfold displayOutline applicationsOutline settingsOutline
  dsimp only
  split_ifs <;> simp_all [printErrorCalls, Event.printError?]

theorem outline_by_replies {σ : Type} (c : NvApiConsts) (api : NvApi σ) (hS hP : Nat) (s : σ) :
    ((profileReply c api hS hP s).status ≠ c.NVAPI_OK →
      (displayOutline c api hS hP s).1 = false ∧
      statuses (displayOutline c api hS hP s).2 = [(profileReply c api hS hP s).status] ∧
      enumApplicationsCalls (displayOutline c api hS hP s).2 = [] ∧
      enumSettingsCalls (displayOutline c api hS hP s).2 = []) ∧
    ((profileReply c api hS hP s).status = c.NVAPI_OK →
      0 < (profileReply c api hS hP s).value.numOfApps →
      (applicationsReply c api hS hP s).status ≠ c.NVAPI_OK →
      (displayOutline c api hS hP s).1 = false ∧
      statuses (displayOutline c api hS hP s).2
        = [(profileReply c api hS hP s).status, (applicationsReply c api hS hP s).status] ∧
      enumSettingsCalls (displayOutline c api hS hP s).2 = []) ∧
    ((profileReply c api hS hP s).status = c.NVAPI_OK →
      (0 < (profileReply c api hS hP s).value.numOfApps →
        (applicationsReply c api hS hP s).status = c.NVAPI_OK) →
      0 < (profileReply c api hS hP s).value.numOfSettings →
      (settingsReply c api hS hP s).status ≠ c.NVAPI_OK →
      (displayOutline c api hS hP s).1 = false ∧
      statuses (displayOutline c api hS hP s).2
        = (profileReply c api hS hP s).status ::
          ((if 0 < (profileReply c api hS hP s).value.numOfApps then
              [(applicationsReply c api hS hP s).status] else [])
            ++ [(settingsReply c api hS hP s).status])) ∧
    ((profileReply c api hS hP s).status = c.NVAPI_OK →
      (0 < (profileReply c api hS hP s).value.numOfApps →
        (applicationsReply c api hS hP s).status = c.NVAPI_OK) →
      (0 < (profileReply c api hS hP s).value.numOfSettings →
        (settingsReply c api hS hP s).status = c.NVAPI_OK) →
      (displayOutline c api hS hP s).1 = true ∧
      statuses (displayOutline c api hS hP s).2
        = (profileReply c api hS hP s).status ::
          ((if 0 < (profileReply c api hS hP s).value.numOfApps then
              [(applicationsReply c api hS hP s).status] else [])
            ++ (if 0 < (profileReply c api hS hP s).value.numOfSettings then
              [(settingsReply c api hS hP s).status] else []))) := by
  unfold displayOutline applicationsOutline settingsOutline settingsReply settingsState
    applicationsReply profileReply
  dsimp only
  generalize api.NvAPI_DRS_GetProfileInfo hS hP (NVDRS_PROFILE.init c.NVDRS_PROFILE_VER) s = r
  refine ⟨?_, ?_, ?_, ?_⟩
  · intro h0
    simp [h0, statuses, enumApplicationsCalls, enumSettingsCalls, Event.status?,
      Event.enumApplications?, Event.enumSettings?]
  · intro h0 hn hA
    simp [h0, hn, hA, statuses, enumSettingsCalls, Event.status?, Event.enumSettings?]
  · intro h0 hA hm hSt
    by_cases hn : 0 < r.value.numOfApps
    · simp only [gt_iff_lt, if_pos hn] at hSt
      simp [h0, hn, hA hn, hm, hSt, statuses, Event.status?]
    · simp only [gt_iff_lt, if_neg hn] at hSt
      simp [h0, hn, hm, hSt, statuses, Event.status?]
  · intro h0 hA hSt
    by_cases hn : 0 < r.value.numOfApps <;> by_cases hm : 0 < r.value.numOfSettings
    · simp only [gt_iff_lt, if_pos hn] at hSt
      simp [h0, hn, hA hn, hm, hSt hm, statuses, Event.status?]
    · simp [h0, hn, hA hn, hm, statuses, Event.status?]
    · simp only [gt_iff_lt, if_neg hn] at hSt
      simp [h0, hn, hm, hSt hm, statuses, Event.status?]
    · simp [h0, hn, hm, statuses, Event.status?]

/-- Counterexample to C5: `GetProfileInfo` answers OK with 4294967295
applications and the vector of main.cpp 59 cannot be allocated. Every service
call the run made answered OK, yet the function does not return `true`: it
does not return, the constructor's exception leaves it. -/
theorem every_call_ok_yet_no_result :
    ∃ (s1 : Nat) (ev : List Event),
      display_profile_contents headerValues hugeCountApi 1 100 0
        = .error (.allocation s1 ev) ∧
      statuses ev = [headerValues.NVAPI_OK] :=
  ⟨_, _, rfl, rfl⟩

/-- C5, amended: when the buffers the run asks for can be allocated (and the
service keeps the reads in bounds), `display_profile_contents` returns, and its
result is `true` if and only if every status the service handed back during
the call is OK. By the service's answers (`profileReply`, `applicationsReply`,
`settingsReply`): `GetProfileInfo` non-OK gives `false`, that one status and no
enumeration call; `GetProfileInfo` OK, a positive application count and
`EnumApplications` non-OK give `false`, those two statuses and no
`EnumSettings` call; with the application block passed, a positive setting
count and `EnumSettings` non-OK give `false` and no setting handed to
`print_setting_info`; in every other case the result is `true`. -/
theorem display_true_iff_every_call_ok {σ : Type} (c : NvApiConsts) (api : NvApi σ)
    (hin : api.InBounds c) (hal : api.Allocates c) (hS hP : Nat) (s : σ) :
    ∃ (b : Bool) (s1 : σ) (ev : List Event),
      display_profile_contents c api hS hP s = .ok (b, s1, ev) ∧
      (b = true ↔ ∀ st ∈ statuses ev, st = c.NVAPI_OK) ∧
      ((profileReply c api hS hP s).status ≠ c.NVAPI_OK →
        b = false ∧ statuses ev = [(profileReply c api hS hP s).status] ∧
        enumApplicationsCalls ev = [] ∧ enumSettingsCalls ev = []) ∧
      ((profileReply c api hS hP s).status = c.NVAPI_OK →
        0 < (profileReply c api hS hP s).value.numOfApps →
        (applicationsReply c api hS hP s).status ≠ c.NVAPI_OK →
        b = false ∧
        statuses ev
          = [(profileReply c api hS hP s).status, (applicationsReply c api hS hP s).status] ∧
        enumSettingsCalls ev = []) ∧
      ((profileReply c api hS hP s).status = c.NVAPI_OK →
        (0 < (profileReply c api hS hP s).value.numOfApps →
          (applicationsReply c api hS hP s).status = c.NVAPI_OK) →
        0 < (profileReply c api hS hP s).value.numOfSettings →
        (settingsReply c api hS hP s).status ≠ c.NVAPI_OK →
        b = false ∧
        statuses ev
          = (profileReply c api hS hP s).status ::
            ((if 0 < (profileReply c api hS hP s).value.numOfApps then
                [(applicationsReply c api hS hP s).status] else [])
              ++ [(settingsReply c api hS hP s).status]) ∧
        settingsShown ev = []) ∧
      ((profileReply c api hS hP s).status = c.NVAPI_OK →
        (0 < (profileReply c api hS hP s).value.numOfApps →
          (applicationsReply c api hS hP s).status = c.NVAPI_OK) →
        (0 < (profileReply c api hS hP s).value.numOfSettings →
          (settingsReply c api hS hP s).status = c.NVAPI_OK) →
        b = true ∧
        statuses ev
          = (profileReply c api hS hP s).status ::
            ((if 0 < (profileReply c api hS hP s).value.numOfApps then
                [(applicationsReply c api hS hP s).status] else [])
              ++ (if 0 < (profileReply c api hS hP s).value.numOfSettings then
                [(settingsReply c api hS hP s).status] else []))) := by
  obtain ⟨s1, ev, hrun, hl, hse⟩ := display_outline c api hin hal hS hP s
  obtain ⟨h1, h2, h3, h4⟩ := outline_by_replies c api hS hP s
  refine ⟨_, s1, ev, hrun, ?_, ?_, ?_, ?_, ?_⟩
  · rw [← statuses_loud, hl]; exact outline_true_iff c api hS hP s
  · intro h0
    rw [← statuses_loud, ← enumApplicationsCalls_loud, ← enumSettingsCalls_loud, hl]
    exact h1 h0
  · intro h0 hn hA
    rw [← statuses_loud, ← enumSettingsCalls_loud, hl]
    exact h2 h0 hn hA
  · intro h0 hA hm hSt
    obtain ⟨hb, hs⟩ := h3 h0 hA hm hSt
    refine ⟨hb, ?_, ?_⟩
    · rw [← statuses_loud, hl]; exact hs
    · rw [← settingsShown_settingEvents, hse hb]; rfl
  · intro h0 hA hSt
    rw [← statuses_loud, hl]
    exact h4 h0 hA hSt

/-- Witness for the amended C5: profile A of the scenario (no application, one
setting); every call answers OK and the result is `true`. -/
theorem display_true_iff_every_call_ok_witness :
    ∃ (s1 : Nat) (ev : List Event),
      display_profile_contents headerValues (tableApi scenarioProfiles) 1 100 0
        = .ok (true, s1, ev) ∧
      statuses ev = [0, 0] := by
  obtain ⟨b, s1, ev, hrun, _, _, _, _, h4⟩ :=
    display_true_iff_every_call_ok headerValues (tableApi scenarioProfiles) scenario_inBounds
      scenario_allocates 1 100 0
  obtain ⟨hb, hs⟩ := h4 rfl (fun h => absurd h (by decide)) (fun _ => rfl)
  subst hb
  exact ⟨s1, ev, hrun, hs⟩

theorem applicationsOutline_failed {σ : Type} (c : NvApiConsts) (api : NvApi σ)
    (hS hP : Nat) (info : NVDRS_PROFILE) (s : σ) (hn : info.numOfApps > 0)
    (hst : (api.NvAPI_DRS_EnumApplications hS hP 0 info.numOfApps
      (appArrayInit c info.numOfApps) s).status ≠ c.NVAPI_OK) :
    (applicationsOutline c api hS hP info s).1 = false ∧
    (applicationsOutline c api hS hP info s).2.2 =
      [Event.EnumApplications hS hP 0 info.numOfApps (appArrayInit c info.numOfApps)
          (api.NvAPI_DRS_EnumApplications hS hP 0 info.numOfApps
            (appArrayInit c info.numOfApps) s).status
          (api.NvAPI_DRS_EnumApplications hS hP 0 info.numOfApps
            (appArrayInit c info.numOfApps) s).count
          (writeBack (appArrayInit c info.numOfApps)
            (api.NvAPI_DRS_EnumApplications hS hP 0 info.numOfApps
              (appArrayInit c info.numOfApps) s).written),
       Event.GetErrorMessage
          (api.NvAPI_DRS_EnumApplications hS hP 0 info.numOfApps
            (appArrayInit c info.numOfApps) s).status
          (api.NvAPI_GetErrorMessage
            (api.NvAPI_DRS_EnumApplications hS hP 0 info.numOfApps
              (appArrayInit c info.numOfApps) s).status
            (api.NvAPI_DRS_EnumApplications hS hP 0 info.numOfApps
              (appArrayInit c info.numOfApps) s).state).1] := by
  simp only [applicationsOutline, if_pos hn, if_pos hst, and_self]

theorem applicationsOutline_passed {σ : Type} (c : NvApiConsts) (api : NvApi σ)
    (hS hP : Nat) (info : NVDRS_PROFILE) (s : σ)
    (h : (applicationsOutline c api hS hP info s).1 = true) :
    enumSettingsCalls (applicationsOutline c api hS hP info s).2.2 = [] ∧
    enumApplicationsCalls (applicationsOutline c api hS hP info s).2.2
      = (if info.numOfApps > 0 then [(0, info.numOfApps)] else []) := by
  revert h
  unfold applicationsOutline
  dsimp only
  split_ifs <;>
    simp [enumSettingsCalls, enumApplicationsCalls, Event.enumSettings?,
      Event.enumApplications?]

theorem settingsOutline_calls {σ : Type} (c : NvApiConsts) (api : NvApi σ)
    (hS hP : Nat) (info : NVDRS_PROFILE) (s : σ) :
    enumApplicationsCalls (settingsOutline c api hS hP info s).2 = [] ∧
    enumSettingsCalls (settingsOutline c api hS hP info s).2
      = (if info.numOfSettings > 0 then [(0, info.numOfSettings)] else []) := by
  unfold settingsOutline
  dsimp only
  split_ifs <;>
    simp [enumSettingsCalls, enumApplicationsCalls, Event.enumSettings?,
      Event.enumApplications?]

theorem outline_enum_calls {σ : Type} (c : NvApiConsts) (api : NvApi σ) (hS hP : Nat) (s : σ) :
    ((api.NvAPI_DRS_GetProfileInfo hS hP (NVDRS_PROFILE.init c.NVDRS_PROFILE_VER)
        s).value.numOfSettings = 0 →
      enumSettingsCalls (displayOutline c api hS hP s).2 = []) ∧
    ((api.NvAPI_DRS_GetProfileInfo hS hP (NVDRS_PROFILE.init c.NVDRS_PROFILE_VER)
        s).value.numOfApps = 0 →
      enumApplicationsCalls (displayOutline c api hS hP s).2 = []) ∧
    ((api.NvAPI_DRS_GetProfileInfo hS hP (NVDRS_PROFILE.init c.NVDRS_PROFILE_VER)
        s).status = c.NVAPI_OK →
      (api.NvAPI_DRS_GetProfileInfo hS hP (NVDRS_PROFILE.init c.NVDRS_PROFILE_VER)
        s).value.numOfApps > 0 →
      enumApplicationsCalls (displayOutline c api hS hP s).2 =
        [(0, (api.NvAPI_DRS_GetProfileInfo hS hP (NVDRS_PROFILE.init c.NVDRS_PROFILE_VER)
          s).value.numOfApps)]) ∧
    ((api.NvAPI_DRS_GetProfileInfo hS hP (NVDRS_PROFILE.init c.NVDRS_PROFILE_VER)
        s).status = c.NVAPI_OK →
      (api.NvAPI_DRS_GetProfileInfo hS hP (NVDRS_PROFILE.init c.NVDRS_PROFILE_VER)
        s).value.numOfSettings > 0 →
      (∀ a p start cap buf st n res,
        Event.EnumApplications a p start cap buf st n res ∈ (displayOutline c api hS hP s).2 →
        st = c.NVAPI_OK) →
      enumSettingsCalls (displayOutline c api hS hP s).2 =
        [(0, (api.NvAPI_DRS_GetProfileInfo hS hP (NVDRS_PROFILE.init c.NVDRS_PROFILE_VER)
          s).value.numOfSettings)]) := by
  refine ⟨?_, ?_, ?_, ?_⟩
  · intro h0
    unfold displayOutline applicationsOutline settingsOutline
    dsimp only
    split_ifs <;>
      simp_all [enumApplicationsCalls, enumSettingsCalls, Event.enumApplications?,
        Event.enumSettings?]
  · intro h0
    unfold displayOutline applicationsOutline settingsOutline
    dsimp only
    split_ifs <;>
      simp_all [enumApplicationsCalls, enumSettingsCalls, Event.enumApplications?,
        Event.enumSettings?]
  · intro hok hpos
    unfold displayOutline applicationsOutline settingsOutline
    dsimp only
    split_ifs <;>
      simp_all [enumApplicationsCalls, enumSettingsCalls, Event.enumApplications?,
        Event.enumSettings?]
  · unfold displayOutline
    dsimp only
    generalize api.NvAPI_DRS_GetProfileInfo hS hP (NVDRS_PROFILE.init c.NVDRS_PROFILE_VER) s = r
    intro hok hpos hall
    simp only [hok, ne_eq, not_true_eq_false, if_false] at hall ⊢
    cases hb : (applicationsOutline c api hS hP r.value r.state).1
    · exfalso
      simp only [hb, if_true] at hall
      by_cases hn : r.value.numOfApps > 0
      · by_cases hst : (api.NvAPI_DRS_EnumApplications hS hP 0 r.value.numOfApps
            (appArrayInit c r.value.numOfApps) r.state).status = c.NVAPI_OK
        · simp [applicationsOutline, hn, hst] at hb
        · obtain ⟨_, hlist⟩ := applicationsOutline_failed c api hS hP r.value r.state hn hst
          rw [hlist] at hall
          exact hst (hall _ _ _ _ _ _ _ _ (List.mem_cons_of_mem _ (List.mem_cons_self _ _)))
      · simp [applicationsOutline, hn] at hb
    · simp only [Bool.true_eq_false, if_false]
      obtain ⟨h1, _⟩ := applicationsOutline_passed c api hS hP r.value r.state hb
      obtain ⟨_, h2⟩ := settingsOutline_calls c api hS hP r.value
        (applicationsOutline c api hS hP r.value r.state).2.1
      simp only [enumSettingsCalls, List.filterMap_cons, List.filterMap_append,
        Event.enumSettings?] at h1 h2 ⊢
      rw [h1, h2, if_pos hpos]; rfl

/-- Counterexample to C4, two runs. First: the profile reports one application
and one setting, `GetProfileInfo` answers OK, and `EnumApplications` fails; the
setting count is positive, yet `EnumSettings` is never called. Second:
`GetProfileInfo` answers OK with 4294967295 applications and the vector of
main.cpp 59 cannot be allocated; the application count is positive, yet the
constructor's exception ends the run before `EnumApplications` is called. -/
theorem positive_setting_count_without_enumeration :
    (∃ (s1 : Nat) (ev : List Event),
      display_profile_contents headerValues appsFailApi 1 100 0 = .ok (false, s1, ev) ∧
      (appsFailApi.NvAPI_DRS_GetProfileInfo 1 100
        (NVDRS_PROFILE.init headerValues.NVDRS_PROFILE_VER) 0).status = headerValues.NVAPI_OK ∧
      (appsFailApi.NvAPI_DRS_GetProfileInfo 1 100
        (NVDRS_PROFILE.init headerValues.NVDRS_PROFILE_VER) 0).value.numOfSettings = 1 ∧
      enumSettingsCalls ev = []) ∧
    (∃ (s1 : Nat) (ev : List Event),
      display_profile_contents headerValues hugeCountApi 1 100 0
        = .error (.allocation s1 ev) ∧
      (hugeCountApi.NvAPI_DRS_GetProfileInfo 1 100
        (NVDRS_PROFILE.init headerValues.NVDRS_PROFILE_VER) 0).status = headerValues.NVAPI_OK ∧
      (hugeCountApi.NvAPI_DRS_GetProfileInfo 1 100
        (NVDRS_PROFILE.init headerValues.NVDRS_PROFILE_VER) 0).value.numOfApps = 4294967295 ∧
      enumApplicationsCalls ev = []) :=
  ⟨⟨_, _, rfl, rfl, rfl, rfl⟩, ⟨_, _, rfl, rfl, rfl, rfl⟩⟩

/-- C4, amended: when the buffers the run asks for can be allocated (and the
service keeps the reads in bounds), `display_profile_contents` returns and,
with the counts taken from the `GetProfileInfo` reply:
a setting count of 0 means no `EnumSettings` call, an application count of 0
means no `EnumApplications` call; when `GetProfileInfo` answered OK and the
application count is positive, `EnumApplications` is called exactly once, with
start index 0 and capacity equal to that count; when `GetProfileInfo` answered
OK, the setting count is positive and no `EnumApplications` call of the run
failed, `EnumSettings` is called exactly once, with start index 0 and capacity
equal to that count. -/
theorem enumeration_calls_follow_reported_counts {σ : Type} (c : NvApiConsts) (api : NvApi σ)
    (hin : api.InBounds c) (hal : api.Allocates c) (hS hP : Nat) (s : σ) :
    ∃ (b : Bool) (s1 : σ) (ev : List Event),
      display_profile_contents c api hS hP s = .ok (b, s1, ev) ∧
      ((api.NvAPI_DRS_GetProfileInfo hS hP (NVDRS_PROFILE.init c.NVDRS_PROFILE_VER)
          s).value.numOfSettings = 0 → enumSettingsCalls ev = []) ∧
      ((api.NvAPI_DRS_GetProfileInfo hS hP (NVDRS_PROFILE.init c.NVDRS_PROFILE_VER)
          s).value.numOfApps = 0 → enumApplicationsCalls ev = []) ∧
      ((api.NvAPI_DRS_GetProfileInfo hS hP (NVDRS_PROFILE.init c.NVDRS_PROFILE_VER)
          s).status = c.NVAPI_OK →
        (api.NvAPI_DRS_GetProfileInfo hS hP (NVDRS_PROFILE.init c.NVDRS_PROFILE_VER)
          s).value.numOfApps > 0 →
        enumApplicationsCalls ev =
          [(0, (api.NvAPI_DRS_GetProfileInfo hS hP (NVDRS_PROFILE.init c.NVDRS_PROFILE_VER)
            s).value.numOfApps)]) ∧
      ((api.NvAPI_DRS_GetProfileInfo hS hP (NVDRS_PROFILE.init c.NVDRS_PROFILE_VER)
          s).status = c.NVAPI_OK →
        (api.NvAPI_DRS_GetProfileInfo hS hP (NVDRS_PROFILE.init c.NVDRS_PROFILE_VER)
          s).value.numOfSettings > 0 →
        (∀ a p start cap buf st n res,
          Event.EnumApplications a p start cap buf st n res ∈ ev → st = c.NVAPI_OK) →
        enumSettingsCalls ev =
          [(0, (api.NvAPI_DRS_GetProfileInfo hS hP (NVDRS_PROFILE.init c.NVDRS_PROFILE_VER)
            s).value.numOfSettings)]) := by
  obtain ⟨s1, ev, hrun, hl, _⟩ := display_outline c api hin hal hS hP s
  obtain ⟨h1, h2, h3, h4⟩ := outline_enum_calls c api hS hP s
  refine ⟨_, s1, ev, hrun, ?_, ?_, ?_, ?_⟩
  · rw [← enumSettingsCalls_loud, hl]; exact h1
  · rw [← enumApplicationsCalls_loud, hl]; exact h2
  · rw [← enumApplicationsCalls_loud, hl]; exact h3
  · intro hok hpos hall
    rw [← enumSettingsCalls_loud, hl]
    refine h4 hok hpos ?_
    intro a p start cap buf st n res hmem
    exact hall a p start cap buf st n res (mem_loud.1 (hl ▸ hmem)).1

/-- Witness for the amended C4: profile B of the scenario (one application, no
setting): one `EnumApplications` call `(0, 1)`, no `EnumSettings` call. -/
theorem enumeration_calls_follow_reported_counts_witness :
    ∃ (b : Bool) (s1 : Nat) (ev : List Event),
      display_profile_contents headerValues (tableApi scenarioProfiles) 1 101 0
        = .ok (b, s1, ev) ∧
      enumSettingsCalls ev = [] ∧ enumApplicationsCalls ev = [(0, 1)] := by
  obtain ⟨b, s1, ev, hrun, h1, _, h3, _⟩ :=
    enumeration_calls_follow_reported_counts headerValues (tableApi scenarioProfiles)
      scenario_inBounds scenario_allocates 1 101 0
  exact ⟨b, s1, ev, hrun, h1 rfl, h3 rfl (by decide)⟩

theorem versions_appArrayInit (c : NvApiConsts) (n : Nat) (hn : 0 < n) :
    (appArrayInit c n).map (·.version)
      = c.NVDRS_APPLICATION_VER :: List.replicate (n - 1) 0 := by
  obtain ⟨m, rfl⟩ : ∃ m, n = m + 1 := ⟨n - 1, by omega⟩
  simp [appArrayInit, List.replicate_succ, NVDRS_APPLICATION.init]

theorem versions_setArrayInit (c : NvApiConsts) (n : Nat) (hn : 0 < n) :
    (setArrayInit c n).map (·.version)
      = c.NVDRS_SETTING_VER :: List.replicate (n - 1) 0 := by
  obtain ⟨m, rfl⟩ : ∃ m, n = m + 1 := ⟨n - 1, by omega⟩
  simp [setArrayInit, List.replicate_succ, NVDRS_SETTING.init]

theorem mem_applicationsOutline {σ : Type} (c : NvApiConsts) (api : NvApi σ) (hS hP : Nat)
    (info : NVDRS_PROFILE) (s : σ) (e : Event)
    (h : e ∈ (applicationsOutline c api hS hP info s).2.2) :
    0 < info.numOfApps ∧
      ((∃ st n res, e = Event.EnumApplications hS hP 0 info.numOfApps
          (appArrayInit c info.numOfApps) st n res) ∨
       (∃ st text, e = Event.GetErrorMessage st text)) := by
  unfold applicationsOutline at h
  dsimp only at h
  by_cases hn : info.numOfApps > 0
  · refine ⟨hn, ?_⟩
    rw [if_pos hn] at h
    split_ifs at h
    · simp only [List.mem_cons, List.mem_singleton, List.not_mem_nil, or_false] at h
      rcases h with rfl | rfl
      · exact Or.inl ⟨_, _, _, rfl⟩
      · exact Or.inr ⟨_, _, rfl⟩
    · simp only [List.mem_singleton] at h
      exact Or.inl ⟨_, _, _, h⟩
  · rw [if_neg hn] at h
    simp at h

theorem mem_settingsOutline {σ : Type} (c : NvApiConsts) (api : NvApi σ) (hS hP : Nat)
    (info : NVDRS_PROFILE) (s : σ) (e : Event)
    (h : e ∈ (settingsOutline c api hS hP info s).2) :
    0 < info.numOfSettings ∧
      ((∃ st n res, e = Event.EnumSettings hS hP 0 info.numOfSettings
          (setArrayInit c info.numOfSettings) st n res) ∨
       (∃ st text, e = Event.GetErrorMessage st text)) := by
  unfold settingsOutline at h
  dsimp only at h
  by_cases hn : info.numOfSettings > 0
  · refine ⟨hn, ?_⟩
    rw [if_pos hn] at h
    split_ifs at h
    · simp only [List.mem_cons, List.mem_singleton, List.not_mem_nil, or_false] at h
      rcases h with rfl | rfl
      · exact Or.inl ⟨_, _, _, rfl⟩
      · exact Or.inr ⟨_, _, rfl⟩
    · simp only [List.mem_singleton] at h
      exact Or.inl ⟨_, _, _, h⟩
  · rw [if_neg hn] at h
    simp at h

theorem mem_displayOutline {σ : Type} (c : NvApiConsts) (api : NvApi σ) (hS hP : Nat)
    (s : σ) (e : Event) (h : e ∈ (displayOutline c api hS hP s).2) :
    (∃ st info, e = Event.GetProfileInfo hS hP (NVDRS_PROFILE.init c.NVDRS_PROFILE_VER)
        st info) ∨
    (∃ info sA, e ∈ (applicationsOutline c api hS hP info sA).2.2) ∨
    (∃ info sA, e ∈ (settingsOutline c api hS hP info sA).2) := by
  unfold displayOutline at h
  dsimp only at h
  split_ifs at h
  · simp only [List.mem_singleton] at h
    exact Or.inl ⟨_, _, h⟩
  · simp only [List.mem_cons] at h
    rcases h with h | h
    · exact Or.inl ⟨_, _, h⟩
    · exact Or.inr (Or.inl ⟨_, _, h⟩)
  · simp only [List.mem_cons, List.mem_append] at h
    rcases h with h | h | h
    · exact Or.inl ⟨_, _, h⟩
    · exact Or.inr (Or.inl ⟨_, _, h⟩)
    · exact Or.inr (Or.inr ⟨_, _, h⟩)

theorem outline_versions {σ : Type} (c : NvApiConsts) (api : NvApi σ) (hS hP : Nat) (s : σ) :
    (∀ a p req st info,
      Event.GetProfileInfo a p req st info ∈ (displayOutline c api hS hP s).2 →
      req.version = c.NVDRS_PROFILE_VER) ∧
    (∀ a p start cap buf st n res,
      Event.EnumApplications a p start cap buf st n res ∈ (displayOutline c api hS hP s).2 →
      0 < cap ∧ buf = appArrayInit c cap) ∧
    (∀ a p start cap buf st n res,
      Event.EnumSettings a p start cap buf st n res ∈ (displayOutline c api hS hP s).2 →
      0 < cap ∧ buf = setArrayInit c cap) := by
  refine ⟨?_, ?_, ?_⟩
  · intro a p req st info h
    rcases mem_displayOutline c api hS hP s _ h with ⟨_, _, h⟩ | ⟨i, sA, h⟩ | ⟨i, sA, h⟩
    · injection h with _ _ hreq
      rw [hreq]; rfl
    · rcases (mem_applicationsOutline c api hS hP i sA _ h).2 with ⟨_, _, _, h⟩ | ⟨_, _, h⟩ <;>
        cases h
    · rcases (mem_settingsOutline c api hS hP i sA _ h).2 with ⟨_, _, _, h⟩ | ⟨_, _, h⟩ <;>
        cases h
  · intro a p start cap buf st n res h
    rcases mem_displayOutline c api hS hP s _ h with ⟨_, _, h⟩ | ⟨i, sA, h⟩ | ⟨i, sA, h⟩
    · cases h
    · obtain ⟨hpos, h⟩ := mem_applicationsOutline c api hS hP i sA _ h
      rcases h with ⟨_, _, _, h⟩ | ⟨_, _, h⟩
      · injection h with _ _ _ hcap hbuf
        subst hcap
        exact ⟨hpos, hbuf⟩
      · cases h
    · rcases (mem_settingsOutline c api hS hP i sA _ h).2 with ⟨_, _, _, h⟩ | ⟨_, _, h⟩ <;>
        cases h
  · intro a p start cap buf st n res h
    rcases mem_displayOutline c api hS hP s _ h with ⟨_, _, h⟩ | ⟨i, sA, h⟩ | ⟨i, sA, h⟩
    · cases h
    · rcases (mem_applicationsOutline c api hS hP i sA _ h).2 with ⟨_, _, _, h⟩ | ⟨_, _, h⟩ <;>
        cases h
    · obtain ⟨hpos, h⟩ := mem_settingsOutline c api hS hP i sA _ h
      rcases h with ⟨_, _, _, h⟩ | ⟨_, _, h⟩
      · injection h with _ _ _ hcap hbuf
        subst hcap
        exact ⟨hpos, hbuf⟩
      · cases h

/-- Counterexample to C9: for a profile that reports two applications, the
buffer passed to `EnumApplications` carries the version constant in element 0
only; element 1 has version 0. The versions sent during the run are the
profile record's, then those of the two buffer elements. -/
theorem second_buffer_element_has_no_version :
    ∃ (s1 : Nat) (ev : List Event),
      display_profile_contents headerValues (tableApi twoAppProfiles) 1 100 0
        = .ok (true, s1, ev) ∧
      ev.flatMap Event.versionsSent
        = [headerValues.NVDRS_PROFILE_VER, headerValues.NVDRS_APPLICATION_VER, 0] ∧
      headerValues.NVDRS_APPLICATION_VER ≠ 0 :=
  ⟨_, _, rfl, rfl, by decide⟩

/-- C9, amended: in every run of `display_profile_contents` (for a service that
keeps the reads in bounds and buffers that can be allocated), the record passed to `GetProfileInfo` has its
version field equal to `NVDRS_PROFILE_VER`, and every buffer passed to
`EnumApplications` or `EnumSettings` has a positive capacity `n`, holds `n`
elements, and carries the version constant in element 0 only: its version
fields are `NVDRS_APPLICATION_VER` (resp. `NVDRS_SETTING_VER`) followed by
`n - 1` zeros. -/
theorem version_set_on_record_and_first_buffer_element {σ : Type} (c : NvApiConsts)
    (api : NvApi σ) (hin : api.InBounds c) (hal : api.Allocates c) (hS hP : Nat) (s : σ) :
    ∃ (b : Bool) (s1 : σ) (ev : List Event),
      display_profile_contents c api hS hP s = .ok (b, s1, ev) ∧
      (∀ a p req st info, Event.GetProfileInfo a p req st info ∈ ev →
        req.version = c.NVDRS_PROFILE_VER) ∧
      (∀ a p start cap buf st n res,
        Event.EnumApplications a p start cap buf st n res ∈ ev →
        0 < cap ∧ buf.length = cap ∧
          buf.map (·.version) = c.NVDRS_APPLICATION_VER :: List.replicate (cap - 1) 0) ∧
      (∀ a p start cap buf st n res,
        Event.EnumSettings a p start cap buf st n res ∈ ev →
        0 < cap ∧ buf.length = cap ∧
          buf.map (·.version) = c.NVDRS_SETTING_VER :: List.replicate (cap - 1) 0) := by
  obtain ⟨s1, ev, hrun, hl, _⟩ := display_outline c api hin hal hS hP s
  obtain ⟨h1, h2, h3⟩ := outline_versions c api hS hP s
  refine ⟨_, s1, ev, hrun, ?_, ?_, ?_⟩
  · intro a p req st info hmem
    exact h1 a p req st info (hl ▸ mem_loud.2 ⟨hmem, rfl⟩)
  · intro a p start cap buf st n res hmem
    obtain ⟨hpos, rfl⟩ := h2 a p start cap buf st n res (hl ▸ mem_loud.2 ⟨hmem, rfl⟩)
    exact ⟨hpos, length_appArrayInit c cap, versions_appArrayInit c cap hpos⟩
  · intro a p start cap buf st n res hmem
    obtain ⟨hpos, rfl⟩ := h3 a p start cap buf st n res (hl ▸ mem_loud.2 ⟨hmem, rfl⟩)
    exact ⟨hpos, length_setArrayInit c cap, versions_setArrayInit c cap hpos⟩

/-- Witness for the amended C9: profile B of the scenario, one application. -/
theorem version_set_on_record_and_first_buffer_element_witness :
    ∃ (b : Bool) (s1 : Nat) (ev : List Event),
      display_profile_contents headerValues (tableApi scenarioProfiles) 1 101 0
        = .ok (b, s1, ev) ∧
      (∀ a p req st info, Event.GetProfileInfo a p req st info ∈ ev →
        req.version = headerValues.NVDRS_PROFILE_VER) ∧
      (∀ a p start cap buf st n res,
        Event.EnumApplications a p start cap buf st n res ∈ ev →
        0 < cap ∧ buf.length = cap ∧
          buf.map (·.version)
            = headerValues.NVDRS_APPLICATION_VER :: List.replicate (cap - 1) 0) ∧
      (∀ a p start cap buf st n res,
        Event.EnumSettings a p start cap buf st n res ∈ ev →
        0 < cap ∧ buf.length = cap ∧
          buf.map (·.version)
            = headerValues.NVDRS_SETTING_VER :: List.replicate (cap - 1) 0) :=
  version_set_on_record_and_first_buffer_element headerValues (tableApi scenarioProfiles)
    scenario_inBounds scenario_allocates 1 101 0

theorem outline_at_most_one_enumeration {σ : Type} (c : NvApiConsts) (api : NvApi σ)
    (hS hP : Nat) (s : σ) :
    (enumApplicationsCalls (displayOutline c api hS hP s).2).length ≤ 1 ∧
    (enumSettingsCalls (displayOutline c api hS hP s).2).length ≤ 1 := by
  unfold displayOutline applicationsOutline settingsOutline
  dsimp only
  split_ifs <;>
    simp [enumApplicationsCalls, enumSettingsCalls, Event.enumApplications?,
      Event.enumSettings?]

/-- Counterexample to C10: the service answers the first `EnumSettings` call
with its capacity-too-small status and would serve a second call (the retry
from the state the run ends in answers OK). `display_profile_contents` makes
one `EnumSettings` call, reports the status and returns `false`. -/
theorem capacity_too_small_is_not_retried :
    ∃ (s1 : Nat) (ev : List Event),
      display_profile_contents headerValues growingApi 1 100 0 = .ok (false, s1, ev) ∧
      statuses ev = [headerValues.NVAPI_OK, capacityTooSmall] ∧
      enumSettingsCalls ev = [(0, 1)] ∧
      printErrorCalls ev = [capacityTooSmall] ∧
      (growingApi.NvAPI_DRS_EnumSettings 1 100 0 1 (setArrayInit headerValues 1) s1).status
        = headerValues.NVAPI_OK :=
  ⟨_, _, rfl, rfl, rfl, rfl, rfl⟩

/-- C10, amended: in every run of `display_profile_contents` (for a service that
keeps the reads in bounds and buffers that can be allocated) the count is
queried once (one `GetProfileInfo`
call) and each enumeration is called at most once. When the `EnumApplications`
or the `EnumSettings` call answers a non-OK status, whatever that status is,
the run makes no further enumeration call, calls `print_error` exactly once,
with that status, and returns `false`. -/
theorem failed_enumeration_reported_once_without_retry {σ : Type} (c : NvApiConsts)
    (api : NvApi σ) (hin : api.InBounds c) (hal : api.Allocates c) (hS hP : Nat) (s : σ) :
    ∃ (b : Bool) (s1 : σ) (ev : List Event),
      display_profile_contents c api hS hP s = .ok (b, s1, ev) ∧
      visits ev = [Visit.displayed hP] ∧
      (enumApplicationsCalls ev).length ≤ 1 ∧ (enumSettingsCalls ev).length ≤ 1 ∧
      (∀ a p start cap buf st n res,
        Event.EnumApplications a p start cap buf st n res ∈ ev → st ≠ c.NVAPI_OK →
        b = false ∧ enumSettingsCalls ev = [] ∧ printErrorCalls ev = [st]) ∧
      (∀ a p start cap buf st n res,
        Event.EnumSettings a p start cap buf st n res ∈ ev → st ≠ c.NVAPI_OK →
        b = false ∧ printErrorCalls ev = [st]) := by
  obtain ⟨s1, ev, hrun, hl, _⟩ := display_outline c api hin hal hS hP s
  obtain ⟨h1, h2⟩ := outline_at_most_one_enumeration c api hS hP s
  refine ⟨_, s1, ev, hrun, ?_, ?_, ?_, ?_, ?_⟩
  · rw [← visits_loud, hl, visits_displayOutline]
  · rw [← enumApplicationsCalls_loud, hl]; exact h1
  · rw [← enumSettingsCalls_loud, hl]; exact h2
  · intro a p start cap buf st n res hmem hst
    rw [← enumSettingsCalls_loud, ← printErrorCalls_loud, hl]
    exact outline_applications_failed c api hS hP s a p start cap buf st n res
      (hl ▸ mem_loud.2 ⟨hmem, rfl⟩) hst
  · intro a p start cap buf st n res hmem hst
    rw [← printErrorCalls_loud, hl]
    exact outline_settings_failed c api hS hP s a p start cap buf st n res
      (hl ▸ mem_loud.2 ⟨hmem, rfl⟩) hst

theorem growingApi_inBounds : growingApi.InBounds headerValues := by
  have h := scenario_inBounds
  refine ⟨h.1, ?_, ?_⟩
  · intro hS hP start n buf s
    by_cases hs : s = 0
    · subst hs
      simp [growingApi]
    · simpa [growingApi, hs] using h.2.1 hS hP start n buf s
  · intro hS hP start n buf s x hx
    by_cases hs : s = 0
    · subst hs
      simp [growingApi] at hx
    · simp only [growingApi, hs, if_false] at hx
      exact h.2.2 hS hP start n buf s x hx

theorem growingApi_allocates : growingApi.Allocates headerValues := scenario_allocates

/-- Witness for the amended C10: the run in which `EnumSettings` fails. -/
theorem failed_enumeration_reported_once_without_retry_witness :
    ∃ (b : Bool) (s1 : Nat) (ev : List Event),
      display_profile_contents headerValues growingApi 1 100 0 = .ok (b, s1, ev) ∧
      visits ev = [Visit.displayed 100] ∧
      (enumApplicationsCalls ev).length ≤ 1 ∧ (enumSettingsCalls ev).length ≤ 1 ∧
      (∀ a p start cap buf st n res,
        Event.EnumApplications a p start cap buf st n res ∈ ev → st ≠ headerValues.NVAPI_OK →
        b = false ∧ enumSettingsCalls ev = [] ∧ printErrorCalls ev = [st]) ∧
      (∀ a p start cap buf st n res,
        Event.EnumSettings a p start cap buf st n res ∈ ev → st ≠ headerValues.NVAPI_OK →
        b = false ∧ printErrorCalls ev = [st]) :=
  failed_enumeration_reported_once_without_retry headerValues growingApi growingApi_inBounds
    growingApi_allocates 1 100 0

/-- C3: take a run of `display_profile_contents` in which `GetProfileInfo`
answers OK, the application block does not return `false` (it leaves the
service in state `sA`), the setting count is positive, the setting vector of
main.cpp 78 is allocated and `EnumSettings` answers OK. Then the run returns
`true`, and with `shown` the settings of the specification (those among the
first `count` elements of the array after the call, `count` being the returned
count, whose location is the current-profile location, in array order): the
events about settings in the run are exactly
those of calling `print_setting_info` on the elements of `shown`, one after the
other, and the name lookups of the run are those of `shown`, in order. No
other setting is looked up or rendered. -/
theorem display_surfaces_current_profile_settings {σ : Type} (c : NvApiConsts)
    (api : NvApi σ) (hin : api.InBounds c) (hS hP : Nat) (s sA : σ) (evA : List Event)
    (hinfo : (api.NvAPI_DRS_GetProfileInfo hS hP (NVDRS_PROFILE.init c.NVDRS_PROFILE_VER)
      s).status = c.NVAPI_OK)
    (happs : display_applications c api hS hP
      (api.NvAPI_DRS_GetProfileInfo hS hP (NVDRS_PROFILE.init c.NVDRS_PROFILE_VER) s).value
      (api.NvAPI_DRS_GetProfileInfo hS hP (NVDRS_PROFILE.init c.NVDRS_PROFILE_VER) s).state
      = .ok (true, sA, evA))
    (hpos : (api.NvAPI_DRS_GetProfileInfo hS hP (NVDRS_PROFILE.init c.NVDRS_PROFILE_VER)
      s).value.numOfSettings > 0)
    (hmem : api.allocSettings
      (api.NvAPI_DRS_GetProfileInfo hS hP (NVDRS_PROFILE.init c.NVDRS_PROFILE_VER)
        s).value.numOfSettings sA = true)
    (hst : (api.NvAPI_DRS_EnumSettings hS hP 0
      (api.NvAPI_DRS_GetProfileInfo hS hP (NVDRS_PROFILE.init c.NVDRS_PROFILE_VER)
        s).value.numOfSettings
      (setArrayInit c (api.NvAPI_DRS_GetProfileInfo hS hP
        (NVDRS_PROFILE.init c.NVDRS_PROFILE_VER) s).value.numOfSettings) sA).status
      = c.NVAPI_OK) :
    ∃ (s1 : σ) (ev evS : List Event) (shown : List NVDRS_SETTING),
      shown = currentProfileSettings c
        (writeBack
          (setArrayInit c (api.NvAPI_DRS_GetProfileInfo hS hP
            (NVDRS_PROFILE.init c.NVDRS_PROFILE_VER) s).value.numOfSettings)
          (api.NvAPI_DRS_EnumSettings hS hP 0
            (api.NvAPI_DRS_GetProfileInfo hS hP (NVDRS_PROFILE.init c.NVDRS_PROFILE_VER)
              s).value.numOfSettings
            (setArrayInit c (api.NvAPI_DRS_GetProfileInfo hS hP
              (NVDRS_PROFILE.init c.NVDRS_PROFILE_VER) s).value.numOfSettings) sA).written)
        (api.NvAPI_DRS_EnumSettings hS hP 0
          (api.NvAPI_DRS_GetProfileInfo hS hP (NVDRS_PROFILE.init c.NVDRS_PROFILE_VER)
            s).value.numOfSettings
          (setArrayInit c (api.NvAPI_DRS_GetProfileInfo hS hP
            (NVDRS_PROFILE.init c.NVDRS_PROFILE_VER) s).value.numOfSettings) sA).count ∧
      display_profile_contents c api hS hP s = .ok (true, s1, ev) ∧
      forEach (print_setting_info c api) shown
        (api.NvAPI_DRS_EnumSettings hS hP 0
          (api.NvAPI_DRS_GetProfileInfo hS hP (NVDRS_PROFILE.init c.NVDRS_PROFILE_VER)
            s).value.numOfSettings
          (setArrayInit c (api.NvAPI_DRS_GetProfileInfo hS hP
            (NVDRS_PROFILE.init c.NVDRS_PROFILE_VER) s).value.numOfSettings) sA).state
        = .ok (s1, evS) ∧
      settingEvents ev = evS ∧
      settingsShown ev = shown.map (·.settingId) := by
  revert hinfo happs hpos hmem hst
  unfold display_profile_contents
  dsimp only
  generalize api.NvAPI_DRS_GetProfileInfo hS hP (NVDRS_PROFILE.init c.NVDRS_PROFILE_VER) s = r
  intro hinfo happs hpos hmem hst
  have hmemA : 0 < r.value.numOfApps →
      api.allocApplications r.value.numOfApps r.state = true := by
    intro hn
    by_contra h
    simp [display_applications, hn, h] at happs
  have hcount : (api.NvAPI_DRS_EnumSettings hS hP 0 r.value.numOfSettings
      (setArrayInit c r.value.numOfSettings) sA).count ≤ r.value.numOfSettings := by
    simpa [length_setArrayInit] using hin.2.1 hS hP 0 r.value.numOfSettings
      (setArrayInit c r.value.numOfSettings) sA
  obtain ⟨s1, evS, hrun, _, habout, hshown⟩ := forEach_print_ok c api _
    (bound_currentProfileSettings c api hin hS hP r.value.numOfSettings sA)
    (api.NvAPI_DRS_EnumSettings hS hP 0 r.value.numOfSettings
      (setArrayInit c r.value.numOfSettings) sA).state
  obtain ⟨evA1, hA1, _, hsA⟩ := display_applications_run c api hin hS hP r.value r.state
    hmemA
  rw [happs] at hA1
  simp only [Except.ok.injEq, Prod.mk.injEq] at hA1
  obtain ⟨_, _, rfl⟩ := hA1
  have hev : settingEvents
      ([Event.GetProfileInfo hS hP (NVDRS_PROFILE.init c.NVDRS_PROFILE_VER) r.status r.value,
        Event.print (Out.profileName r.value.profileName),
        Event.print (Out.profileNumOfApps r.value.numOfApps),
        Event.print (Out.profileNumOfSettings r.value.numOfSettings),
        Event.print (Out.profilePredefined r.value.isPredefined)] ++ evA ++
        (Event.EnumSettings hS hP 0 r.value.numOfSettings (setArrayInit c r.value.numOfSettings)
          (api.NvAPI_DRS_EnumSettings hS hP 0 r.value.numOfSettings
            (setArrayInit c r.value.numOfSettings) sA).status
          (api.NvAPI_DRS_EnumSettings hS hP 0 r.value.numOfSettings
            (setArrayInit c r.value.numOfSettings) sA).count
          (writeBack (setArrayInit c r.value.numOfSettings)
            (api.NvAPI_DRS_EnumSettings hS hP 0 r.value.numOfSettings
              (setArrayInit c r.value.numOfSettings) sA).written) :: evS) ++
        [Event.print Out.blankLine]) = evS := by
    simp only [settingEvents_append, List.cons_append, List.nil_append, settingEvents_cons,
      settingEvents_nil, Event.aboutSetting, hsA, settingEvents_eq_self habout]
    simp
  refine ⟨s1, _, evS, _, rfl, ?_, hrun, hev, ?_⟩
  · simp only [hinfo, ne_eq, not_true_eq_false, if_false, happs]
    rw [display_settings_eq c api hS hP r.value sA hpos hmem hst hcount s1 evS hrun]
  · rw [← settingsShown_settingEvents, hev, hshown]

/-- Witness for C3: three settings returned, two in the current profile
(identifiers 1 and 3) and one inherited (identifier 2): exactly the two are
handed to `print_setting_info`, in array order. -/
theorem display_surfaces_current_profile_settings_witness :
    ∃ (s1 : Nat) (ev : List Event),
      display_profile_contents headerValues (tableApi mixedProfiles) 1 100 0
        = .ok (true, s1, ev) ∧
      settingsShown ev = [1, 3] := by
  obtain ⟨s1, ev, evS, shown, hshown, hrun, _, _, hids⟩ :=
    display_surfaces_current_profile_settings headerValues (tableApi mixedProfiles)
      mixed_inBounds 1 100 0 0 [] rfl rfl (by decide) rfl rfl
  refine ⟨s1, ev, hrun, ?_⟩
  rw [hids, hshown]
  rfl

/-! ## Session teardown -/

theorem profile_loop_no_destroy {σ : Type} (c : NvApiConsts) (api : NvApi σ)
    (hin : api.InBounds c) (hal : api.Allocates c) (hS : Nat) :
    ∀ (fuel index hP : Nat) (s : σ) (st : Int) (s1 : σ) (ev : List Event),
      profile_loop c api hS fuel index hP s = .ok (st, s1, ev) → destroyCalls ev = [] := by
  intro fuel
  induction fuel with
  | zero => intro index hP s st s1 ev hrun; simp [profile_loop] at hrun
  | succ fuel ih =>
    intro index hP s st s1 ev hrun
    simp only [profile_loop] at hrun
    by_cases hst : (api.NvAPI_DRS_EnumProfiles hS index hP s).status = c.NVAPI_OK
    · simp only [if_pos hst] at hrun
      split at hrun
      · simp at hrun
      · rename_i b s2 ev1 hd
        split at hrun
        · simp at hrun
        · rename_i st2 s3 ev2 hrec
          simp only [Except.ok.injEq, Prod.mk.injEq] at hrun
          obtain ⟨rfl, rfl, rfl⟩ := hrun
          obtain ⟨b1, s4, ev4, hd4, _, hno⟩ := display_visits c api hin hal hS
            (api.NvAPI_DRS_EnumProfiles hS index hP s).value
            (api.NvAPI_DRS_EnumProfiles hS index hP s).state
          rw [hd] at hd4
          simp only [Except.ok.injEq, Prod.mk.injEq] at hd4
          obtain ⟨_, _, rfl⟩ := hd4
          have h2 := ih _ _ _ _ _ _ hrec
          simp only [destroyCalls, List.filterMap_cons, List.filterMap_append,
            Event.destroy?] at hno h2 ⊢
          rw [hno, h2]; rfl
    · simp only [if_neg hst, Except.ok.injEq, Prod.mk.injEq] at hrun
      obtain ⟨rfl, rfl, rfl⟩ := hrun
      simp [destroyCalls, Event.destroy?]

theorem destroyCalls_report_unless_ok {σ : Type} (c : NvApiConsts) (api : NvApi σ) (st : Int)
    (s : σ) : destroyCalls (report_unless_ok c api st s).2 = [] := by
  unfold report_unless_ok
  split <;> simp [destroyCalls, print_error, Event.destroy?]

theorem destroyCalls_report_loop_exit {σ : Type} (c : NvApiConsts) (api : NvApi σ) (st : Int)
    (s : σ) : destroyCalls (report_loop_exit c api st s).2 = [] := by
  unfold report_loop_exit
  split_ifs <;> simp [destroyCalls, print_error, Event.destroy?]

/-- The part of C6 that holds: every run of `enumerate_profiles_on_system` that
returns (the profile loop ended, the reads stayed in bounds, the buffers could
be allocated) calls
`DestroySession` exactly once, as its last event, on the handle `CreateSession`
left in `hSession`, whatever `Initialize`, `CreateSession`, `LoadSettings`, the
profile fetches or the enumeration answered. -/
theorem enumerate_destroys_session_once_last {σ : Type} (c : NvApiConsts) (api : NvApi σ)
    (hin : api.InBounds c) (hal : api.Allocates c) (fuel : Nat) (s s1 : σ) (ev : List Event)
    (hrun : enumerate_profiles_on_system c api fuel s = .ok (s1, ev)) :
    ∃ (pre : List Event) (hS : Nat),
      ev = pre ++ [Event.DestroySession hS] ∧ destroyCalls pre = [] ∧
      destroyCalls ev = [hS] ∧
      Event.CreateSession
        (api.NvAPI_DRS_CreateSession 0
          (report_unless_ok c api (api.NvAPI_Initialize s).1 (api.NvAPI_Initialize s).2).1).status
        hS ∈ pre := by
  unfold enumerate_profiles_on_system at hrun
  dsimp only at hrun
  split at hrun
  · simp at hrun
  · rename_i st s3 ev3 hloop
    have hno := profile_loop_no_destroy c api hin hal _ _ _ _ _ _ _ _ hloop
    simp only [Except.ok.injEq, Prod.mk.injEq] at hrun
    obtain ⟨_, rfl⟩ := hrun
    have h0 := destroyCalls_report_unless_ok c api
    have h3 := destroyCalls_report_loop_exit c api st s3
    refine ⟨_, _, rfl, ?_, ?_, ?_⟩
    · simp only [destroyCalls, List.filterMap_append, List.filterMap_cons, List.filterMap_nil,
        Event.destroy?] at h0 h3 hno ⊢
      rw [h0, h0, h0, h3, hno]; rfl
    · simp only [destroyCalls, List.filterMap_append, List.filterMap_cons, List.filterMap_nil,
        Event.destroy?] at h0 h3 hno ⊢
      rw [h0, h0, h0, h3, hno]; rfl
    · simp

/-- Witness: the scenario run destroys session 1 once, as its last event. -/
theorem enumerate_destroys_session_once_last_witness :
    ∃ (s1 : Nat) (ev : List Event),
      enumerate_profiles_on_system headerValues (tableApi scenarioProfiles) 3 0 = .ok (s1, ev) ∧
      ∃ (pre : List Event) (hS : Nat),
        ev = pre ++ [Event.DestroySession hS] ∧ destroyCalls pre = [] ∧
        destroyCalls ev = [hS] ∧ Event.CreateSession 0 hS ∈ pre :=
  ⟨_, _, rfl,
    enumerate_destroys_session_once_last headerValues (tableApi scenarioProfiles)
      scenario_inBounds scenario_allocates 3 0 _ _ rfl⟩

/-- C6 fails in `main`: with a service whose `LoadSettings` answers a non-OK
status after `CreateSession` succeeded, `main` leaves by the uncaught exception
"can't load system settings"; the run is `Initialize`, `CreateSession`,
`LoadSettings` and nothing more: `DestroySession` is never called. -/
theorem main_leaks_session_when_load_settings_fails :
    main headerValues loadFailApi 0
      = .ok (.threw "can't load system settings", 0,
          [Event.Initialize 0, Event.CreateSession 0 1, Event.LoadSettings 1 (-1)]) ∧
    destroyCalls [Event.Initialize 0, Event.CreateSession 0 1, Event.LoadSettings 1 (-1)] = [] :=
  ⟨rfl, rfl⟩

/-- On the path of `main` where the four set-up calls answer OK (and the
buffers of the display can be allocated), `main` returns 0 and calls
`DestroySession` exactly once, as its last event. -/
theorem main_destroys_session_when_setup_succeeds {σ : Type} (c : NvApiConsts) (api : NvApi σ)
    (hin : api.InBounds c) (hal : api.Allocates c) (s : σ)
    (h0 : (api.NvAPI_Initialize s).1 = c.NVAPI_OK)
    (h1 : (api.NvAPI_DRS_CreateSession 0 (api.NvAPI_Initialize s).2).status = c.NVAPI_OK)
    (h2 : (api.NvAPI_DRS_LoadSettings
      (api.NvAPI_DRS_CreateSession 0 (api.NvAPI_Initialize s).2).value
      (api.NvAPI_DRS_CreateSession 0 (api.NvAPI_Initialize s).2).state).1 = c.NVAPI_OK)
    (h3 : (api.NvAPI_DRS_GetCurrentGlobalProfile
      (api.NvAPI_DRS_CreateSession 0 (api.NvAPI_Initialize s).2).value 0
      (api.NvAPI_DRS_LoadSettings
        (api.NvAPI_DRS_CreateSession 0 (api.NvAPI_Initialize s).2).value
        (api.NvAPI_DRS_CreateSession 0 (api.NvAPI_Initialize s).2).state).2).status
      = c.NVAPI_OK) :
    ∃ (s1 : σ) (pre : List Event),
      main c api s = .ok (.returned 0, s1,
        pre ++ [Event.DestroySession
          (api.NvAPI_DRS_CreateSession 0 (api.NvAPI_Initialize s).2).value]) ∧
      destroyCalls pre = [] := by
  unfold main
  simp only [h0, h1, h2, h3, ne_eq, not_true_eq_false, if_false]
  obtain ⟨b, s1, ev, hd, _, hno⟩ := display_visits c api hin hal
    (api.NvAPI_DRS_CreateSession 0 (api.NvAPI_Initialize s).2).value
    (api.NvAPI_DRS_GetCurrentGlobalProfile
      (api.NvAPI_DRS_CreateSession 0 (api.NvAPI_Initialize s).2).value 0
      (api.NvAPI_DRS_LoadSettings
        (api.NvAPI_DRS_CreateSession 0 (api.NvAPI_Initialize s).2).value
        (api.NvAPI_DRS_CreateSession 0 (api.NvAPI_Initialize s).2).state).2).value
    (List.foldl (fun s name => api.hardwareQuery name s)
      (api.NvAPI_DRS_GetCurrentGlobalProfile
        (api.NvAPI_DRS_CreateSession 0 (api.NvAPI_Initialize s).2).value 0
        (api.NvAPI_DRS_LoadSettings
          (api.NvAPI_DRS_CreateSession 0 (api.NvAPI_Initialize s).2).value
          (api.NvAPI_DRS_CreateSession 0 (api.NvAPI_Initialize s).2).state).2).state
      hardwareQueries)
  rw [hd]
  refine ⟨_, _, rfl, ?_⟩
  simp only [destroyCalls, List.filterMap_append, List.filterMap_cons, List.filterMap_nil,
    Event.destroy?, List.filterMap_map] at hno ⊢
  rw [hno]
  simp [hardwareQueries, Event.destroy?]

/-- Witness: `main` on the scenario service. -/
theorem main_destroys_session_when_setup_succeeds_witness :
    ∃ (s1 : Nat) (pre : List Event),
      main headerValues (tableApi scenarioProfiles) 0
        = .ok (.returned 0, s1, pre ++ [Event.DestroySession 1]) ∧
      destroyCalls pre = [] :=
  main_destroys_session_when_setup_succeeds headerValues (tableApi scenarioProfiles)
    scenario_inBounds scenario_allocates 0 rfl rfl rfl rfl

end NvapiExample
